import Mathlib

/-!
Verification of the photo-sharing uploader's metadata resolution and
idempotent ingestion engine, shallowly embedded from the Python sources
(`uploader/folder_metadata.py`, `uploader/main.py`, `uploader/database.py`,
`uploader/geocoding.py`, `uploader/storage.py`).

Modelling conventions:
* Python `datetime` values are integer seconds since the epoch (`Int`);
  calendar dates are day numbers (`Nat`), with `datetime.combine(d, time.min)`
  mapped to `d * 86400` and `datetime.combine(d, time.max.replace(microsecond=0))`
  mapped to `d * 86400 + 86399`.
* Python `None` is `Option.none`; Python truthiness of optional strings
  (`if s:`) is `truthyStr` (empty strings are falsy).
* UUIDs are fresh naturals drawn from a counter in the database state.
* The PostgreSQL tables are association lists inside a `Database` record; the
  SQL statements of `database.py` are transcribed as pure state transformers.
* External collaborators (embedding model, face detector, geocoding service)
  are supplied as pure oracle functions keyed by the data the code passes them.
-/

namespace PhotoUploader

/-- Python truthiness for an optional string: `None` and `""` are falsy. -/
def truthyStr : Option String → Bool
  | none => false
  | some s => s ≠ ""

/-- Python `x or y` on optional strings: `x` if truthy, else `y`. -/
def pyOr (x y : Option String) : Option String :=
  if truthyStr x then x else y

/-- SQL `COALESCE(a, b)`. -/
def coalesce {α : Type} (a b : Option α) : Option α :=
  match a with
  | some x => some x
  | none => b

/-! ## folder_metadata.py -/

/-- `DateRange` (folder_metadata.py lines 10-16). Day numbers model dates. -/
structure DateRange where
  not_earlier_than : Option Nat := none
  not_later_than : Option Nat := none
  source_path : Option String := none
deriving DecidableEq, Repr

/-- `PlaceHint` (folder_metadata.py lines 19-39). -/
structure PlaceHint where
  country : Option String := none
  state : Option String := none
  city : Option String := none
  street : Option String := none
  lat : Option ℚ := none
  lon : Option ℚ := none
deriving DecidableEq, Repr

/-- `PlaceHint.has_hierarchy`: `any([country, state, city, street])`
(Python truthiness, folder_metadata.py lines 37-39). -/
def PlaceHint.has_hierarchy (p : PlaceHint) : Bool :=
  truthyStr p.country || truthyStr p.state || truthyStr p.city || truthyStr p.street

/-- `FolderMetadata` (folder_metadata.py lines 42-47). -/
structure FolderMetadata where
  date_range : Option DateRange := none
  place : Option PlaceHint := none
deriving DecidableEq, Repr

/-- One iteration of the merge loop of `get_folder_metadata`
(folder_metadata.py lines 150-177): apply one directory's parsed
`folder.yaml` on top of the accumulated result, field by field. -/
def mergeStep (result : FolderMetadata) (e : String × FolderMetadata) : FolderMetadata :=
  let folder := e.1
  let metadata := e.2
  let result :=
    match metadata.date_range with
    | none => result
    | some dr =>
      let base := result.date_range.getD {}
      let base :=
        if dr.not_earlier_than.isSome then
          { base with not_earlier_than := dr.not_earlier_than, source_path := some folder }
        else base
      let base :=
        if dr.not_later_than.isSome then
          { base with not_later_than := dr.not_later_than, source_path := some folder }
        else base
      { result with date_range := some base }
  match metadata.place with
  | none => result
  | some p =>
    let base := result.place.getD {}
    let base := { base with country := if truthyStr p.country then p.country else base.country }
    let base := { base with state := if truthyStr p.state then p.state else base.state }
    let base := { base with city := if truthyStr p.city then p.city else base.city }
    let base := { base with street := if truthyStr p.street then p.street else base.street }
    let base := { base with lat := if p.lat.isSome then p.lat else base.lat }
    let base := { base with lon := if p.lon.isSome then p.lon else base.lon }
    { result with place := some base }

/-- `get_folder_metadata` (folder_metadata.py lines 94-182), with the
filesystem walk abstracted into its outcome: `metadata_stack` is the list of
`(directory, parsed folder.yaml)` pairs collected leaf-to-root (only the
directories that actually had a `folder.yaml`).  The code applies them in
reversed (root-to-leaf) order so that closer folders override. -/
def get_folder_metadata (metadata_stack : List (String × FolderMetadata)) : FolderMetadata :=
  metadata_stack.reverse.foldl mergeStep {}

/-! ## image_processing.py (data carried into the resolver) -/

/-- `ExifData` (image_processing.py lines 20-34). `taken_at` is an absolute
instant in seconds (the code's timezone normalisation — assume UTC when the
tag is naive — is the identity here). -/
structure ExifData where
  camera_make : Option String := none
  camera_model : Option String := none
  lens : Option String := none
  focal_length : Option String := none
  aperture : Option String := none
  shutter_speed : Option String := none
  iso : Option Int := none
  taken_at : Option Int := none
  gps_lat : Option ℚ := none
  gps_lon : Option ℚ := none
  raw_exif : Option String := none
deriving DecidableEq, Repr

/-! ## main.py: date resolution -/

/-- `datetime.combine(date, datetime.min.time(), tzinfo=utc)` for a day. -/
def combineMin (d : Nat) : Int := (d : Int) * 86400

/-- `datetime.combine(date, datetime.max.time().replace(microsecond=0), tzinfo=utc)`. -/
def combineMax (d : Nat) : Int := (d : Int) * 86400 + 86399

/-- `get_date_for_photo` (main.py lines 64-117).  Returns
`(not_earlier_than, not_later_than, source)`; the file's mtime is passed in
for the final fallback. -/
def get_date_for_photo (exif : ExifData) (folder_meta_date : Option DateRange)
    (mtime : Int) : Int × Int × String :=
  let fallback : Int × Int × String :=
    match exif.taken_at with
    | some dt => (dt, dt, "EXIF")
    | none => (mtime, mtime, "file")
  match folder_meta_date with
  | none => fallback
  | some dr =>
    if dr.not_earlier_than.isSome || dr.not_later_than.isSome then
      let earlier := dr.not_earlier_than.map combineMin
      let later := dr.not_later_than.map combineMax
      let source :=
        match dr.source_path with
        | some p => "folder.yaml (" ++ p ++ ")"
        | none => "folder.yaml"
      match earlier, later with
      | some e, some l => (e, l, source)
      | some e, none => (e, e, source)
      | none, some l => (l, l, source)
      | none, none => fallback
    else fallback

/-! ## geocoding.py -/

/-- `LocalizedName` (geocoding.py lines 10-20).  The code only ever builds
one from a truthy string, so both components are plain strings here. -/
structure LocalizedName where
  sv : String
  en : String
deriving DecidableEq, Repr

/-- `GeocodedPlace` (geocoding.py lines 23-30). -/
structure GeocodedPlace where
  country : Option LocalizedName := none
  state : Option LocalizedName := none
  city : Option LocalizedName := none
  street : Option LocalizedName := none
deriving DecidableEq, Repr

/-- The address fields of a Nominatim response that the code reads
(geocoding.py lines 128-138); `none` for an absent key. -/
structure NominatimAddress where
  country : Option String := none
  state : Option String := none
  region : Option String := none
  province : Option String := none
  city : Option String := none
  town : Option String := none
  village : Option String := none
  municipality : Option String := none
  road : Option String := none
  street : Option String := none
deriving DecidableEq, Repr

/-- `round(x)` to the nearest integer (ties upward; Python's float `round`
differs only on exact representational ties, immaterial here). -/
def pyRound (q : ℚ) : ℤ := ⌊q + 1 / 2⌋

/-- `Geocoder._round_coords` (geocoding.py lines 58-63): `round(x, 4)` on
both coordinates — the nearest multiple of `1/10000`. -/
def round_coords (lat lon : ℚ) : ℚ × ℚ :=
  ((pyRound (lat * 10000) : ℚ) / 10000, (pyRound (lon * 10000) : ℚ) / 10000)

/-- Field extraction from a Nominatim address (geocoding.py lines 128-145):
`state`/`region`/`province` collapse to state, `city`/`town`/`village`/
`municipality` collapse to city, `road`/`street` to street; each
`LocalizedName` is built only from a truthy string. -/
def addressToPlace (addr : NominatimAddress) : GeocodedPlace :=
  let country := addr.country
  let state := pyOr addr.state (pyOr addr.region addr.province)
  let city := pyOr addr.city (pyOr addr.town (pyOr addr.village addr.municipality))
  let street := pyOr addr.road addr.street
  let mk : Option String → Option LocalizedName := fun o =>
    if truthyStr o then o.map (fun s => LocalizedName.mk s s) else none
  { country := mk country, state := mk state, city := mk city, street := mk street }

/-- The geocoder's per-process state: the result cache keyed by coordinates
(geocoding.py line 49).  The rate limiter only delays wall-clock time and is
not modelled. -/
structure Geocoder where
  cache : List ((ℚ × ℚ) × Option GeocodedPlace) := []

/-- `Geocoder.reverse_geocode` (geocoding.py lines 65-151).  `svc` is the
Nominatim collaborator: `none` models a request error or a response without
an `address` key, both of which the code caches as a definite negative.
Returns the result, the updated geocoder state, and the list of outbound
HTTP requests made, recording the coordinates actually sent.  Note that the
request parameters at lines 89-90 are the RAW `lat`/`lon` arguments; only
`cache_key` is rounded. -/
def reverse_geocode (svc : ℚ → ℚ → Option NominatimAddress) (g : Geocoder)
    (lat lon : ℚ) : Option GeocodedPlace × Geocoder × List (ℚ × ℚ) :=
  let cache_key := round_coords lat lon
  match (g.cache.lookup cache_key : Option (Option GeocodedPlace)) with
  | some r => (r, g, [])
  | none =>
    match svc lat lon with
    | none => (none, { cache := (cache_key, none) :: g.cache }, [(lat, lon)])
    | some addr =>
      let result := addressToPlace addr
      (some result, { cache := (cache_key, some result) :: g.cache }, [(lat, lon)])

/-! ## database.py -/

/-- The place `type` column: `{country, state, city, street}`. -/
inductive PlaceType
  | country
  | state
  | city
  | street
deriving DecidableEq, Repr

/-- Specificity rank: smaller is broader.  `country < state < city < street`. -/
def PlaceType.rank : PlaceType → Nat
  | .country => 0
  | .state => 1
  | .city => 2
  | .street => 3

/-- A row of the `photos` table (columns of the INSERT in
database.py lines 117-132). -/
structure PhotoRow where
  id : String
  original_filename : String
  date_not_earlier_than : Option Int := none
  date_not_later_than : Option Int := none
  place_id : Option Nat := none
  width : Option Nat := none
  height : Option Nat := none
  is_low_quality : Bool := false
  created_at : Int := 0
  updated_at : Int := 0
deriving DecidableEq, Repr

/-- A row of the `places` table (database.py lines 204-210). -/
structure PlaceRow where
  id : Nat
  name_sv : String
  name_en : String
  place_type : PlaceType
  parent_id : Option Nat
deriving DecidableEq, Repr

/-- A row of the `exif_metadata` table (database.py lines 143-160). -/
structure ExifRow where
  photo_id : String
  camera_make : Option String := none
  camera_model : Option String := none
  lens : Option String := none
  focal_length : Option String := none
  aperture : Option String := none
  shutter_speed : Option String := none
  iso : Option Int := none
  taken_at : Option Int := none
  raw_exif : Option String := none
deriving DecidableEq, Repr

/-- A row of the `faces` table (database.py lines 319-326). -/
structure FaceRow where
  id : Nat
  photo_id : String
  bbox_x : Int
  bbox_y : Int
  bbox_width : Int
  bbox_height : Int
  embedding : List ℚ
  cluster_id : Option String := none
deriving DecidableEq, Repr

/-- The catalog state: one association list per table, plus a counter
standing in for `uuid4()` freshness. -/
structure Database where
  photos : List PhotoRow := []
  edit_history : List (String × String) := []
  exif_metadata : List ExifRow := []
  places : List PlaceRow := []
  image_embeddings : List (String × List ℚ) := []
  faces : List FaceRow := []
  next_uuid : Nat := 0

/-- `Database.photo_exists` (database.py lines 59-66). -/
def Database.photo_exists (db : Database) (photo_id : String) : Bool :=
  db.photos.any (fun r => r.id == photo_id)

/-- `Database.has_manual_edits` (database.py lines 68-86): any
`edit_history` row for `(photo_id, field_type)`. -/
def Database.has_manual_edits (db : Database) (photo_id field_type : String) : Bool :=
  db.edit_history.any (fun e => e.1 == photo_id && e.2 == field_type)

/-- The first `photos` row with the given id (what the SQL statements key on). -/
def Database.photoById (db : Database) (photo_id : String) : Option PhotoRow :=
  db.photos.find? (fun r => r.id == photo_id)

/-- `Database.create_photo` (database.py lines 88-133): null out the date
bounds / place id when a manual-edit lock exists for an existing photo, then
`INSERT ... ON CONFLICT (id) DO UPDATE SET x = COALESCE(EXCLUDED.x, photos.x)`
with `updated_at` always refreshed. -/
def Database.create_photo (db : Database) (photo_id original_filename : String)
    (date_not_earlier_than : Option Int := none)
    (date_not_later_than : Option Int := none)
    (place_id : Option Nat := none)
    (width : Option Nat := none) (height : Option Nat := none)
    (now : Int := 0) : Database :=
  let dne :=
    if db.photo_exists photo_id && db.has_manual_edits photo_id "date" then none
    else date_not_earlier_than
  let dnl :=
    if db.photo_exists photo_id && db.has_manual_edits photo_id "date" then none
    else date_not_later_than
  let pid :=
    if db.photo_exists photo_id && db.has_manual_edits photo_id "place" then none
    else place_id
  if db.photo_exists photo_id then
    { db with photos := db.photos.map (fun r =>
        if r.id == photo_id then
          { r with
            date_not_earlier_than := coalesce dne r.date_not_earlier_than
            date_not_later_than := coalesce dnl r.date_not_later_than
            place_id := coalesce pid r.place_id
            width := coalesce width r.width
            height := coalesce height r.height
            updated_at := now }
        else r) }
  else
    { db with photos := db.photos ++
        [{ id := photo_id, original_filename := original_filename
           date_not_earlier_than := dne, date_not_later_than := dnl
           place_id := pid, width := width, height := height
           is_low_quality := false, created_at := now, updated_at := now }] }

/-- `Database.create_exif_metadata` (database.py lines 135-162):
`INSERT ... ON CONFLICT (photo_id) DO UPDATE` overwriting every column. -/
def Database.create_exif_metadata (db : Database) (photo_id : String)
    (exif : ExifData) : Database :=
  let row : ExifRow :=
    { photo_id := photo_id, camera_make := exif.camera_make
      camera_model := exif.camera_model, lens := exif.lens
      focal_length := exif.focal_length, aperture := exif.aperture
      shutter_speed := exif.shutter_speed, iso := exif.iso
      taken_at := exif.taken_at, raw_exif := exif.raw_exif }
  if db.exif_metadata.any (fun r => r.photo_id == photo_id) then
    { db with exif_metadata := db.exif_metadata.map (fun r =>
        if r.photo_id == photo_id then row else r) }
  else
    { db with exif_metadata := db.exif_metadata ++ [row] }

/-- `Database.get_or_create_place` (database.py lines 164-212): exact match
on `(name_sv, parent_id)` (NULL parent when absent); create with a fresh id
otherwise.  The `type` column is NOT part of the lookup key. -/
def Database.get_or_create_place (db : Database) (name_sv name_en : String)
    (place_type : PlaceType) (parent_id : Option Nat) : Nat × Database :=
  match db.places.find? (fun p => p.name_sv == name_sv && p.parent_id == parent_id) with
  | some row => (row.id, db)
  | none =>
    let place_id := db.next_uuid
    (place_id,
      { db with
        places := db.places ++
          [{ id := place_id, name_sv := name_sv, name_en := name_en
             place_type := place_type, parent_id := parent_id }]
        next_uuid := db.next_uuid + 1 })

/-- `Database.create_place_hierarchy` (database.py lines 214-246): walk
country → state → city → street, chaining `get_or_create_place`, and return
the most specific id seen (or `none` if nothing supplied). -/
def Database.create_place_hierarchy (db : Database)
    (country state city street : Option (String × String)) : Option Nat × Database :=
  let s0 : Option Nat × Option Nat × Database := (none, none, db)
  let s1 :=
    match country with
    | some (sv, en) =>
      let r := s0.2.2.get_or_create_place sv en .country none
      (some r.1, some r.1, r.2)
    | none => s0
  let s2 :=
    match state with
    | some (sv, en) =>
      let r := s1.2.2.get_or_create_place sv en .state s1.1
      (some r.1, some r.1, r.2)
    | none => s1
  let s3 :=
    match city with
    | some (sv, en) =>
      let r := s2.2.2.get_or_create_place sv en .city s2.1
      (some r.1, some r.1, r.2)
    | none => s2
  let s4 :=
    match street with
    | some (sv, en) =>
      let r := s3.2.2.get_or_create_place sv en .street s3.1
      (s3.1, some r.1, r.2)
    | none => s3
  (s4.2.1, s4.2.2)

/-- `Database.embedding_exists` (database.py lines 248-255). -/
def Database.embedding_exists (db : Database) (photo_id : String) : Bool :=
  db.image_embeddings.any (fun e => e.1 == photo_id)

/-- `Database.create_image_embedding` (database.py lines 257-280):
upsert by `photo_id`, overwriting the vector. -/
def Database.create_image_embedding (db : Database) (photo_id : String)
    (embedding : List ℚ) : Database :=
  if db.image_embeddings.any (fun e => e.1 == photo_id) then
    { db with image_embeddings := db.image_embeddings.map (fun e =>
        if e.1 == photo_id then (photo_id, embedding) else e) }
  else
    { db with image_embeddings := db.image_embeddings ++ [(photo_id, embedding)] }

/-- `Database.faces_exist` (database.py lines 282-289): at least one `faces`
row for the photo.  Note this cannot distinguish "zero faces found" from
"never checked". -/
def Database.faces_exist (db : Database) (photo_id : String) : Bool :=
  db.faces.any (fun f => f.photo_id == photo_id)

/-- `Database.create_face` (database.py lines 291-328): plain INSERT with a
fresh id (no conflict key). -/
def Database.create_face (db : Database) (photo_id : String)
    (bbox_x bbox_y bbox_width bbox_height : Int) (embedding : List ℚ) :
    Nat × Database :=
  let face_id := db.next_uuid
  (face_id,
    { db with
      faces := db.faces ++
        [{ id := face_id, photo_id := photo_id, bbox_x := bbox_x, bbox_y := bbox_y
           bbox_width := bbox_width, bbox_height := bbox_height
           embedding := embedding, cluster_id := none }]
      next_uuid := db.next_uuid + 1 })

/-- `Database.update_face_cluster` (database.py lines 360-375):
`UPDATE faces SET cluster_id = %s WHERE id = %s`. -/
def Database.update_face_cluster (db : Database) (face_id : Nat)
    (cluster_id : String) : Database :=
  { db with faces := db.faces.map (fun f =>
      if f.id == face_id then { f with cluster_id := some cluster_id } else f) }

/-- `Database.get_all_photo_ids` (database.py lines 413-424). -/
def Database.get_all_photo_ids (db : Database) : List String :=
  db.photos.map (fun r => r.id)

/-- `Database.get_all_embedding_photo_ids` (database.py lines 426-437). -/
def Database.get_all_embedding_photo_ids (db : Database) : List String :=
  db.image_embeddings.map (fun e => e.1)

/-- `Database.get_all_face_photo_ids` (database.py lines 439-450): photo ids
with at least one face row. -/
def Database.get_all_face_photo_ids (db : Database) : List String :=
  (db.faces.map (fun f => f.photo_id)).dedup

/-- `Database.get_all_photo_places` (database.py lines 452-463): photo id →
place id, only for photos with a non-null `place_id`. -/
def Database.get_all_photo_places (db : Database) : List (String × Nat) :=
  db.photos.filterMap (fun r => r.place_id.map (fun p => (r.id, p)))

/-- `Database.get_all_face_embeddings` (database.py lines 340-358). -/
def Database.get_all_face_embeddings (db : Database) : List (Nat × List ℚ) :=
  db.faces.map (fun f => (f.id, f.embedding))

/-! ## main.py: place resolution -/

/-- `(s, s) if s else None` with Python truthiness (main.py lines 146-149). -/
def dupIfTruthy (o : Option String) : Option (String × String) :=
  match o with
  | some s => if s ≠ "" then some (s, s) else none
  | none => none

/-- `(n.sv, n.en) if n else None` (main.py lines 159-162). -/
def locPair (o : Option LocalizedName) : Option (String × String) :=
  o.map (fun n => (n.sv, n.en))

/-- `get_place_id_for_photo` (main.py lines 120-166).  The geocoder
collaborator is the pair of the enabled flag and the service oracle `svc`;
its cache state is threaded through.  Returns
`(place_id, source, database, geocoder, outbound requests)`. -/
def get_place_id_for_photo (db : Database) (exif : ExifData)
    (place_hint : Option PlaceHint) (geocoder_on : Bool)
    (svc : ℚ → ℚ → Option NominatimAddress) (geo : Geocoder) :
    Option Nat × String × Database × Geocoder × List (ℚ × ℚ) :=
  let gpsBranch : Option Nat × String × Database × Geocoder × List (ℚ × ℚ) :=
    match geocoder_on, exif.gps_lat, exif.gps_lon with
    | true, some lat, some lon =>
      let r := reverse_geocode svc geo lat lon
      match r.1 with
      | some geocoded =>
        if geocoded.country.isSome then
          let h := db.create_place_hierarchy (locPair geocoded.country)
            (locPair geocoded.state) (locPair geocoded.city) (locPair geocoded.street)
          (h.1, "GPS", h.2, r.2.1, r.2.2)
        else (none, "none", db, r.2.1, r.2.2)
      | none => (none, "none", db, r.2.1, r.2.2)
    | _, _, _ => (none, "none", db, geo, [])
  match place_hint with
  | some hint =>
    if hint.has_hierarchy then
      let h := db.create_place_hierarchy (dupIfTruthy hint.country)
        (dupIfTruthy hint.state) (dupIfTruthy hint.city) (dupIfTruthy hint.street)
      (h.1, "folder.yaml", h.2, geo, [])
    else gpsBranch
  | none => gpsBranch

/-! ## main.py: the ingestion orchestrator -/

/-- One detected face returned by the face model (faces.py collaborator). -/
structure FaceDet where
  bbox_x : Int
  bbox_y : Int
  bbox_width : Int
  bbox_height : Int
  embedding : List ℚ
deriving DecidableEq, Repr

/-- The per-file inputs of `process_photo`: the content hash, the display
name, the extracted EXIF signals, the file's mtime, and the merged folder
metadata of its directory (`get_folder_metadata`; the per-directory cache
returns the identical value, so it is folded into the signal). -/
structure FileSig where
  photo_id : String
  filename : String
  exif : ExifData := {}
  mtime : Int := 0
  folder_meta : FolderMetadata := {}
deriving DecidableEq, Repr

/-- `ProcessingContext` (main.py lines 42-61).  The embedding and face
models are content-determined collaborators keyed by the photo hash; the
geocoder is the enabled flag plus the service oracle. -/
structure Ctx where
  embedder : Option (String → List ℚ) := none
  face_detector : Option (String → List FaceDet) := none
  geocoder_on : Bool := false
  svc : ℚ → ℚ → Option NominatimAddress := fun _ _ => none
  existing_originals : Option (List String) := none
  existing_thumbnails : Option (List String) := none
  existing_defaults : Option (List String) := none
  existing_photo_ids : Option (List String) := none
  existing_embeddings : Option (List String) := none
  existing_photo_places : Option (List (String × Nat)) := none

/-- The object store: one name set per container (storage.py). -/
structure BlobStore where
  originals : List String := []
  thumbnails : List String := []
  defaults : List String := []
deriving DecidableEq, Repr

/-- Mutable state threaded through a run: context (with its in-memory
snapshots), object store, catalog, and geocoder cache. -/
structure PipelineState where
  ctx : Ctx
  storage : BlobStore
  db : Database
  geo : Geocoder := {}

/-- Observable effects of processing: committed database statements,
blob uploads, and model invocations. -/
structure RunStats where
  db_writes : Nat := 0
  uploads : Nat := 0
  embed_calls : Nat := 0
  face_detect_calls : Nat := 0
deriving DecidableEq, Repr

/-- The early-exit check (main.py lines 191-201): in batch mode, skip a file
whose photo is cataloged and whose requested optional stages are satisfied. -/
def earlyExit (ctx : Ctx) (photo_id : String) : Bool :=
  match ctx.existing_photo_ids with
  | some ids =>
    if ids.contains photo_id then
      let needs_embeddings :=
        ctx.embedder.isSome && !(ctx.existing_embeddings.getD []).contains photo_id
      let needs_place :=
        ctx.geocoder_on &&
          !((ctx.existing_photo_places.getD []).map Prod.fst).contains photo_id
      !needs_embeddings && !needs_place
    else false
  | none => false

/-- Blob existence flags (main.py lines 213-221): pre-fetched sets in batch
mode, live `storage.exists` checks otherwise. -/
def blobFlags (ctx : Ctx) (storage : BlobStore) (photo_id : String) :
    Bool × Bool × Bool :=
  match ctx.existing_originals with
  | some s =>
    (s.contains photo_id,
     (ctx.existing_thumbnails.getD []).contains photo_id,
     (ctx.existing_defaults.getD []).contains photo_id)
  | none =>
    (storage.originals.contains photo_id,
     storage.thumbnails.contains photo_id,
     storage.defaults.contains photo_id)

/-- Decode/derivation work selection (main.py lines 223-241): full
processing when any blob is missing, EXIF-only when only the place is
missing, nothing (an empty `ExifData`) when blobs and place both exist. -/
def computeSignals (f : FileSig) (need_blobs has_place : Bool) :
    ExifData × Option Unit × Option Unit :=
  if need_blobs then (f.exif, some (), some ())
  else if !has_place then (f.exif, none, none)
  else ({}, none, none)

/-- Conditional uploads (main.py lines 251-266), each updating the
corresponding pre-fetched set when present. -/
def uploadStage (ctx : Ctx) (storage : BlobStore) (photo_id : String)
    (has_original has_thumbnail has_default : Bool)
    (thumbnail default_view : Option Unit) : Ctx × BlobStore × Nat :=
  let s1 :=
    if !has_original then
      ({ ctx with existing_originals := ctx.existing_originals.map (fun s => s ++ [photo_id]) },
       { storage with originals := storage.originals ++ [photo_id] }, 1)
    else (ctx, storage, 0)
  let s2 :=
    if !has_thumbnail && thumbnail.isSome then
      ({ s1.1 with existing_thumbnails := s1.1.existing_thumbnails.map (fun s => s ++ [photo_id]) },
       { s1.2.1 with thumbnails := s1.2.1.thumbnails ++ [photo_id] }, s1.2.2 + 1)
    else s1
  if !has_default && default_view.isSome then
    ({ s2.1 with existing_defaults := s2.1.existing_defaults.map (fun s => s ++ [photo_id]) },
     { s2.2.1 with defaults := s2.2.1.defaults ++ [photo_id] }, s2.2.2 + 1)
  else s2

/-- Place determination (main.py lines 273-306): use the pre-fetched
assignment when present, otherwise resolve and record the new assignment in
the snapshot. -/
def placeStage (ctx : Ctx) (db : Database) (geo : Geocoder)
    (photo_id : String) (exif : ExifData) (place_hint : Option PlaceHint) :
    Option Nat × Ctx × Database × Geocoder :=
  let resolve : Option Nat × Ctx × Database × Geocoder :=
    let r := get_place_id_for_photo db exif place_hint ctx.geocoder_on ctx.svc geo
    let place_id := r.1
    let ctx' :=
      match ctx.existing_photo_places, place_id with
      | some m, some pid =>
        { ctx with existing_photo_places := some (m ++ [(photo_id, pid)]) }
      | _, _ => ctx
    (place_id, ctx', r.2.2.1, r.2.2.2.1)
  match ctx.existing_photo_places with
  | some m =>
    match m.lookup photo_id with
    | some pid => (some pid, ctx, db, geo)
    | none => resolve
  | none => resolve

/-- Embedding stage (main.py lines 321-340). -/
def embedStage (ctx : Ctx) (db : Database) (photo_id : String) :
    Ctx × Database × Nat × Nat :=
  match ctx.embedder with
  | none => (ctx, db, 0, 0)
  | some gen =>
    let embedding_exists :=
      match ctx.existing_embeddings with
      | some s => s.contains photo_id
      | none => db.embedding_exists photo_id
    if embedding_exists then (ctx, db, 0, 0)
    else
      let db' := db.create_image_embedding photo_id (gen photo_id)
      let ctx' :=
        { ctx with existing_embeddings := ctx.existing_embeddings.map (fun s => s ++ [photo_id]) }
      (ctx', db', 1, 1)

/-- Face-detection stage (main.py lines 342-371): in batch mode the
"already attempted" signal is `photo_id ∈ existing_photo_ids`; in
single-file mode it is `Database.faces_exist`. -/
def faceStage (ctx : Ctx) (db : Database) (photo_id : String) :
    Database × Nat × Nat :=
  match ctx.face_detector with
  | none => (db, 0, 0)
  | some det =>
    let faces_processed :=
      match ctx.existing_photo_ids with
      | some ids => ids.contains photo_id
      | none => db.faces_exist photo_id
    if faces_processed then (db, 0, 0)
    else
      let faces := det photo_id
      let db' := faces.foldl
        (fun d face =>
          (d.create_face photo_id face.bbox_x face.bbox_y face.bbox_width
            face.bbox_height face.embedding).2) db
      (db', faces.length, 1)

/-- `process_photo` (main.py lines 169-373), as the composition of its
stages.  `now` models `datetime.now()` inside `create_photo`. -/
def process_photo (st : PipelineState) (f : FileSig) (now : Int) :
    PipelineState × RunStats :=
  let photo_id := f.photo_id
  if earlyExit st.ctx photo_id then (st, {})
  else
    let folder_meta := f.folder_meta
    let flags := blobFlags st.ctx st.storage photo_id
    let has_original := flags.1
    let has_thumbnail := flags.2.1
    let has_default := flags.2.2
    let need_blobs := !(has_original && has_thumbnail && has_default)
    let has_place :=
      match st.ctx.existing_photo_places with
      | some m => (m.lookup photo_id).isSome
      | none => false
    let sig := computeSignals f need_blobs has_place
    let exif := sig.1
    let dates := get_date_for_photo exif folder_meta.date_range f.mtime
    let up := uploadStage st.ctx st.storage photo_id has_original has_thumbnail
      has_default sig.2.1 sig.2.2
    let pl := placeStage up.1 st.db st.geo photo_id exif folder_meta.place
    let place_id := pl.1
    let place_writes := pl.2.2.1.places.length - st.db.places.length
    let db1 := pl.2.2.1.create_photo photo_id f.filename (some dates.1)
      (some dates.2.1) place_id none none now
    let ex :=
      if truthyStr exif.camera_make || exif.taken_at.isSome then
        (db1.create_exif_metadata photo_id exif, 1)
      else (db1, 0)
    let emb := embedStage pl.2.1 ex.1 photo_id
    let fc := faceStage emb.1 emb.2.1 photo_id
    ({ ctx := emb.1, storage := up.2.1, db := fc.1, geo := pl.2.2.2 },
     { db_writes := place_writes + 1 + ex.2 + emb.2.2.1 + fc.2.1
       uploads := up.2.2
       embed_calls := emb.2.2.2
       face_detect_calls := fc.2.2 })

/-- Modelled from the spec: `BlobStorage.list_all_blobs` is invoked by the
batch, originals, thumbnails, defaults and check commands (main.py lines
489-491, 685, 726, 769, 609-611) but is not defined in `storage.py`; the
spec (§6: "set-returning queries for existence snapshots"; §4.4:
"pre-fetched existence snapshots") intends it to return the names present
in the given container. -/
def BlobStore.list_all_blobs (s : BlobStore) (container : String) : List String :=
  if container == "originals" then s.originals
  else if container == "thumbnails" then s.thumbnails
  else s.defaults

/-- The `batch` command's setup and per-file loop (main.py lines 486-525):
pre-fetch the existence snapshots (lines 488-495; embedding and place
snapshots only for enabled stages), build the context, and process every
file, collecting per-file statistics.  A fresh geocoder cache models the
per-process singleton. -/
def batchRun (embedder : Option (String → List ℚ))
    (face_detector : Option (String → List FaceDet))
    (geocoder_on : Bool) (svc : ℚ → ℚ → Option NominatimAddress)
    (files : List FileSig) (storage : BlobStore) (db : Database) (now : Int) :
    PipelineState × List RunStats :=
  let ctx : Ctx :=
    { embedder := embedder, face_detector := face_detector
      geocoder_on := geocoder_on, svc := svc
      existing_originals := some (storage.list_all_blobs "originals")
      existing_thumbnails := some (storage.list_all_blobs "thumbnails")
      existing_defaults := some (storage.list_all_blobs "default")
      existing_photo_ids := some db.get_all_photo_ids
      existing_embeddings :=
        if embedder.isSome then some db.get_all_embedding_photo_ids else none
      existing_photo_places :=
        if geocoder_on then some db.get_all_photo_places else none }
  files.foldl
    (fun acc f =>
      let r := process_photo acc.1 f now
      (r.1, acc.2 ++ [r.2]))
    ({ ctx := ctx, storage := storage, db := db, geo := {} }, [])

/-- The single-file `upload` command (main.py lines 390-434): a context with
no pre-fetched snapshots. -/
def singleUploadRun (embedder : Option (String → List ℚ))
    (face_detector : Option (String → List FaceDet))
    (geocoder_on : Bool) (svc : ℚ → ℚ → Option NominatimAddress)
    (f : FileSig) (storage : BlobStore) (db : Database) (now : Int) :
    PipelineState × RunStats :=
  process_photo
    { ctx := { embedder := embedder, face_detector := face_detector
               geocoder_on := geocoder_on, svc := svc }
      storage := storage, db := db, geo := {} } f now

/-! ## main.py: cluster and detect-faces commands -/

/-- `f"cluster_{label}"` (main.py line 588). -/
def mkClusterLabel (l : Int) : String := "cluster_" ++ toString l

/-- The write-back loop of the `cluster` command (main.py lines 584-589):
one single-row UPDATE per face whose DBSCAN label is not the noise label −1;
noise faces are not written at all.  The DBSCAN labeling is the external
collaborator; `labels` is its output aligned with `face_ids`.  Returns the
database and the number of UPDATE statements issued. -/
def persistClusterLabels (db : Database) (face_ids : List Nat)
    (labels : List Int) : Database × Nat :=
  (face_ids.zip labels).foldl
    (fun acc fl =>
      if fl.2 ≠ -1 then (acc.1.update_face_cluster fl.1 (mkClusterLabel fl.2), acc.2 + 1)
      else acc)
    (db, 0)

/-- The `cluster` command (main.py lines 528-594) after the DBSCAN fit:
face ids come from `get_all_face_embeddings`, labels from the clustering. -/
def clusterRun (db : Database) (labels : List Int) : Database × Nat :=
  persistClusterLabels db (db.get_all_face_embeddings.map Prod.fst) labels

/-- The `detect-faces` command loop (main.py lines 973-1021): skip files not
in the catalog, skip photos that already have ≥ 1 face row
(`get_all_face_photo_ids`), detect and insert otherwise, adding the photo to
the in-memory face set only when faces were found.  Returns the database and
the number of detector invocations. -/
def detectFacesRun (det : String → List FaceDet) (files : List FileSig)
    (db : Database) : Database × Nat :=
  let existing_photo_ids := db.get_all_photo_ids
  let init : Database × List String × Nat := (db, db.get_all_face_photo_ids, 0)
  let r := files.foldl
    (fun acc f =>
      if !(existing_photo_ids.contains f.photo_id) then acc
      else if acc.2.1.contains f.photo_id then acc
      else
        let faces := det f.photo_id
        let db' := faces.foldl
          (fun d face =>
            (d.create_face f.photo_id face.bbox_x face.bbox_y face.bbox_width
              face.bbox_height face.embedding).2) acc.1
        let fset := if !faces.isEmpty then acc.2.1 ++ [f.photo_id] else acc.2.1
        (db', fset, acc.2.2 + 1))
    init
  (r.1, r.2.2)

/-! ## storage.py: attribute surface of `BlobStorage` -/

/-- The method names defined by class `BlobStorage` (storage.py lines 9-88). -/
def blobStorageMethods : List String :=
  ["upload_original", "upload_bytes", "upload_thumbnail", "upload_default", "exists"]

/-- Python attribute lookup on a `BlobStorage` instance: a method reference
resolves iff the class defines the name; otherwise it raises
`AttributeError`. -/
def storageMethod (name : String) : Except String Unit :=
  if blobStorageMethods.contains name then .ok () else .error ("AttributeError: " ++ name)

/-- The `batch` command's call order (main.py lines 486-525): the
`storage.list_all_blobs` attribute lookups of the pre-fetch (lines 489-491)
happen before the per-file loop; the loop runs only if they succeed.
Returns the number of files processed. -/
def batchCommand (files : List FileSig) : Except String Nat := do
  let _ ← storageMethod "list_all_blobs"
  let _ ← storageMethod "list_all_blobs"
  let _ ← storageMethod "list_all_blobs"
  pure files.length

/-- The `originals` command (main.py lines 676-710): one
`storage.list_all_blobs` pre-fetch (line 685) before its loop. -/
def originalsCommand (files : List FileSig) : Except String Nat := do
  let _ ← storageMethod "list_all_blobs"
  pure files.length

/-- The `thumbnails` command (main.py lines 717-753): pre-fetch at line 726. -/
def thumbnailsCommand (files : List FileSig) : Except String Nat := do
  let _ ← storageMethod "list_all_blobs"
  pure files.length

/-- The `defaults` command (main.py lines 760-796): pre-fetch at line 769. -/
def defaultsCommand (files : List FileSig) : Except String Nat := do
  let _ ← storageMethod "list_all_blobs"
  pure files.length

/-- The `check` command (main.py lines 599-669): three
`storage.list_all_blobs` inventories (lines 609-611) before any reporting. -/
def checkCommand : Except String Unit := do
  let _ ← storageMethod "list_all_blobs"
  let _ ← storageMethod "list_all_blobs"
  let _ ← storageMethod "list_all_blobs"
  pure ()

/-! ## The operations an automatic run can apply to the catalog -/

/-- The `database.py` write entry points invoked from `main.py` by automatic
runs (ingestion, places, embeddings, faces, clustering).  No ingestion code
writes to `edit_history`. -/
inductive IngestOp
  | createPhoto (photo_id original_filename : String)
      (dne dnl : Option Int) (place_id : Option Nat)
      (width height : Option Nat) (now : Int)
  | createExif (photo_id : String) (exif : ExifData)
  | createHierarchy (country state city street : Option (String × String))
  | createEmbedding (photo_id : String) (v : List ℚ)
  | createFace (photo_id : String) (x y w h : Int) (v : List ℚ)
  | updateFaceCluster (face_id : Nat) (cluster_id : String)

/-- Apply one automatic catalog operation. -/
def Database.applyOp (db : Database) : IngestOp → Database
  | .createPhoto pid fn dne dnl place w h now =>
    db.create_photo pid fn dne dnl place w h now
  | .createExif pid exif => db.create_exif_metadata pid exif
  | .createHierarchy c s ci st => (db.create_place_hierarchy c s ci st).2
  | .createFace pid x y w h v => (db.create_face pid x y w h v).2
  | .createEmbedding pid v => db.create_image_embedding pid v
  | .updateFaceCluster fid cid => db.update_face_cluster fid cid

/-- Apply a sequence of automatic catalog operations. -/
def Database.applyOps (db : Database) (ops : List IngestOp) : Database :=
  ops.foldl Database.applyOp db

/-! ## Concrete fixtures used by counterexamples and witnesses -/

/-- A geocoding service that always fails (request error / no address). -/
def svcNone : ℚ → ℚ → Option NominatimAddress := fun _ _ => none

/-- A face detector that finds no faces in any image. -/
def detNone : String → List FaceDet := fun _ => []

/-- A face detector that finds one face in every image. -/
def detOne : String → List FaceDet :=
  fun _ => [{ bbox_x := 0, bbox_y := 0, bbox_width := 1, bbox_height := 1, embedding := [] }]

/-- A file whose bytes hash to `"h"`, with no EXIF signals and no folder
configuration. -/
def fPlain : FileSig := { photo_id := "h", filename := "a.jpg" }

/-- A byte-identical duplicate of `fPlain` under a different name. -/
def fDup : FileSig := { photo_id := "h", filename := "b.jpg" }

/-- A catalog holding one photo `"h"` with no face rows: face detection for
it has been attempted and found zero faces. -/
def dbZeroFaces : Database := { photos := [{ id := "h", original_filename := "a.jpg" }] }

/-- The object store already holding all three renditions of `"h"`. -/
def storeH : BlobStore := { originals := ["h"], thumbnails := ["h"], defaults := ["h"] }

/-- Three faces, the first already carrying a cluster label from an earlier
clustering run. -/
def dbThreeFaces : Database :=
  { faces :=
      [{ id := 0, photo_id := "h", bbox_x := 0, bbox_y := 0, bbox_width := 1
         bbox_height := 1, embedding := [], cluster_id := some "cluster_0" },
       { id := 1, photo_id := "h", bbox_x := 0, bbox_y := 0, bbox_width := 1
         bbox_height := 1, embedding := [], cluster_id := none },
       { id := 2, photo_id := "h", bbox_x := 0, bbox_y := 0, bbox_width := 1
         bbox_height := 1, embedding := [], cluster_id := none }]
    next_uuid := 3 }

/-! ## C3 — batch-mode commands fail at the pre-fetch -/

/-- C3: the `batch` command — and likewise `originals`, `thumbnails`,
`defaults`, and `check` — fails with an `AttributeError` on
`list_all_blobs` during the snapshot pre-fetch, before any file is
processed, because `BlobStorage` defines no such method. -/
theorem batch_fails_at_prefetch (files : List FileSig) :
    batchCommand files = .error "AttributeError: list_all_blobs" ∧
    originalsCommand files = .error "AttributeError: list_all_blobs" ∧
    thumbnailsCommand files = .error "AttributeError: list_all_blobs" ∧
    defaultsCommand files = .error "AttributeError: list_all_blobs" ∧
    checkCommand = .error "AttributeError: list_all_blobs" :=
  ⟨rfl, rfl, rfl, rfl, rfl⟩

/-! ## C7 — date bounds -/

/-- C7 counterexample: `get_date_for_photo` performs no validation of the
configured range, so a sidecar with `not_earlier_than` = day 5 and
`not_later_than` = day 3 yields bounds with
`not_earlier_than > not_later_than`, contradicting the claimed
`not_earlier_than ≤ not_later_than`. -/
theorem date_bounds_counterexample :
    (get_date_for_photo {}
        (some { not_earlier_than := some 5, not_later_than := some 3 }) 0).1 >
      (get_date_for_photo {}
        (some { not_earlier_than := some 5, not_later_than := some 3 }) 0).2.1 := by
  decide

/-- C7 amended: both bounds are always returned; provided the merged
configuration is not itself inverted (whenever it sets both bounds, the
earlier day is ≤ the later day), the result satisfies
`not_earlier_than ≤ not_later_than`; and when the configuration sets exactly
one bound, the missing bound is filled with the present one, giving a
zero-width interval. -/
theorem date_bounds_ordered (exif : ExifData) (fmd : Option DateRange) (mtime : Int)
    (h : ∀ dr, fmd = some dr → ∀ d1 d2, dr.not_earlier_than = some d1 →
      dr.not_later_than = some d2 → d1 ≤ d2) :
    (get_date_for_photo exif fmd mtime).1 ≤ (get_date_for_photo exif fmd mtime).2.1 ∧
    (∀ dr d, fmd = some dr → dr.not_earlier_than = some d → dr.not_later_than = none →
      (get_date_for_photo exif fmd mtime).1 = (get_date_for_photo exif fmd mtime).2.1) ∧
    (∀ dr d, fmd = some dr → dr.not_earlier_than = none → dr.not_later_than = some d →
      (get_date_for_photo exif fmd mtime).1 = (get_date_for_photo exif fmd mtime).2.1) := by
  have hfall : (match exif.taken_at with
      | some dt => (dt, dt, "EXIF")
      | none => (mtime, mtime, "file") : Int × Int × String).1 =
      (match exif.taken_at with
      | some dt => (dt, dt, "EXIF")
      | none => (mtime, mtime, "file") : Int × Int × String).2.1 := by
    cases exif.taken_at <;> rfl
  cases fmd with
  | none =>
    refine ⟨le_of_eq ?_, ?_, ?_⟩
    · simpa [get_date_for_photo] using hfall
    · intro dr d hdr; cases hdr
    · intro dr d hdr; cases hdr
  | some dr =>
    rcases hne : dr.not_earlier_than with _ | d1 <;>
      rcases hnl : dr.not_later_than with _ | d2
    · refine ⟨le_of_eq ?_, ?_, ?_⟩
      · simpa [get_date_for_photo, hne, hnl] using hfall
      · intro dr' d hdr' h1 _; cases hdr'; rw [hne] at h1; cases h1
      · intro dr' d hdr' _ h2; cases hdr'; rw [hnl] at h2; cases h2
    · refine ⟨le_of_eq ?_, ?_, ?_⟩
      · simp [get_date_for_photo, hne, hnl]
      · intro dr' d hdr' h1 _; cases hdr'; rw [hne] at h1; cases h1
      · intro dr' d hdr' _ _; simp [get_date_for_photo, hne, hnl]
    · refine ⟨le_of_eq ?_, ?_, ?_⟩
      · simp [get_date_for_photo, hne, hnl]
      · intro dr' d hdr' _ _; simp [get_date_for_photo, hne, hnl]
      · intro dr' d hdr' _ h2; cases hdr'; rw [hnl] at h2; cases h2
    · have hd : d1 ≤ d2 := h dr rfl d1 d2 hne hnl
      refine ⟨?_, ?_, ?_⟩
      · simp only [get_date_for_photo, hne, hnl, Option.isSome_some, Bool.true_or,
          if_true, Option.map_some]
        simp [combineMin, combineMax]
        omega
      · intro dr' d hdr' h1 h2; cases hdr'; rw [hnl] at h2; cases h2
      · intro dr' d hdr' h1 _; cases hdr'; rw [hne] at h1; cases h1

/-- C7 witness: a well-ordered two-day configured range satisfies the
ordering conclusion. -/
theorem date_bounds_ordered_witness :
    (get_date_for_photo {}
        (some { not_earlier_than := some 2, not_later_than := some 3 }) 0).1 ≤
      (get_date_for_photo {}
        (some { not_earlier_than := some 2, not_later_than := some 3 }) 0).2.1 :=
  (date_bounds_ordered {} (some { not_earlier_than := some 2, not_later_than := some 3 }) 0
    (by intro dr hdr d1 d2 h1 h2
        cases hdr
        simp at h1 h2
        omega)).1

/-! ## C6 — rounding in the geocoder -/

/-- C6 counterexample: for the request at coordinates (1/3, 1/3) the single
outbound call carries the raw coordinates, which differ from the rounded
ones — so the coordinates sent upstream are NOT the rounded ones as
claimed. -/
theorem geocode_raw_upstream_counterexample :
    (reverse_geocode svcNone {} (1/3) (1/3)).2.2 = [(1/3, 1/3)] ∧
    ((1/3 : ℚ), (1/3 : ℚ)) ≠ round_coords (1/3) (1/3) := by
  have hfl : pyRound ((1/3 : ℚ) * 10000) = 3333 := by
    simp only [pyRound]
    rw [Int.floor_eq_iff]
    norm_num
  constructor
  · rfl
  · intro hx
    have h1 : (1/3 : ℚ) = (pyRound ((1/3 : ℚ) * 10000) : ℚ) / 10000 :=
      congrArg Prod.fst hx
    rw [hfl] at h1
    norm_num at h1

/-- C6 amended: the 4-decimal rounding is applied to the cache key only —
every cache lookup and store is keyed by the rounded pair, so a second
request whose coordinates agree after rounding is answered from the cache
with no outbound call; but the outbound request itself carries the raw
latitude and longitude. -/
theorem geocode_cache_uses_rounded (svc : ℚ → ℚ → Option NominatimAddress)
    (g : Geocoder) (lat lon lat' lon' : ℚ)
    (h : round_coords lat' lon' = round_coords lat lon) :
    (∀ c ∈ (reverse_geocode svc g lat lon).2.2, c = (lat, lon)) ∧
    ((reverse_geocode svc g lat lon).2.1.cache = g.cache ∨
      ∃ r, (reverse_geocode svc g lat lon).2.1.cache =
        (round_coords lat lon, r) :: g.cache) ∧
    (reverse_geocode svc ((reverse_geocode svc g lat lon).2.1) lat' lon').2.2 = [] ∧
    (reverse_geocode svc ((reverse_geocode svc g lat lon).2.1) lat' lon').1 =
      (reverse_geocode svc g lat lon).1 := by
  simp only [reverse_geocode]
  rcases hl : g.cache.lookup (round_coords lat lon) with _ | r
  · rcases hs : svc lat lon with _ | addr
    · refine ⟨by simp, Or.inr ⟨none, rfl⟩, ?_, ?_⟩ <;>
        simp [h, List.lookup, beq_self_eq_true]
    · refine ⟨by simp, Or.inr ⟨some (addressToPlace addr), rfl⟩, ?_, ?_⟩ <;>
        simp [h, List.lookup, beq_self_eq_true]
  · rw [h, hl]
    exact ⟨by simp, Or.inl rfl, rfl, rfl⟩

/-- C6 witness: coordinates differing only in the fifth decimal share a
cache entry, so the second request makes no outbound call. -/
theorem geocode_cache_uses_rounded_witness :
    (reverse_geocode svcNone
        ((reverse_geocode svcNone {} (1/3) 0).2.1) (3333/10000) 0).2.2 = [] :=
  (geocode_cache_uses_rounded svcNone {} (1/3) 0 (3333/10000) 0 (by
    have h1 : pyRound ((3333/10000 : ℚ) * 10000) = 3333 := by
      simp only [pyRound]
      rw [Int.floor_eq_iff]
      norm_num
    have h2 : pyRound ((1/3 : ℚ) * 10000) = 3333 := by
      simp only [pyRound]
      rw [Int.floor_eq_iff]
      norm_num
    simp only [round_coords, h1, h2])).2.2.1

/-! ## C8 — per-field closest-ancestor override -/

/-- Spec-side definition (the claim's wording): the value a per-field
override resolves to when "the closest ancestor's explicit value dominates"
— the first truthy value in leaf-to-root order. -/
def closestTruthy : List (Option String) → Option String
  | [] => none
  | v :: rest => if truthyStr v then v else closestTruthy rest

/-- Spec-side definition: the same rule for fields overridden on mere
presence (date bounds, lat/lon). -/
def closestSome {α : Type} : List (Option α) → Option α
  | [] => none
  | v :: rest => if v.isSome then v else closestSome rest

/-- Unfolding the merge one directory at a time: the root-to-leaf fold over
`e :: t` is the fold over `t` with `e` applied last. -/
theorem get_folder_metadata_cons (e : String × FolderMetadata)
    (t : List (String × FolderMetadata)) :
    get_folder_metadata (e :: t) = mergeStep (get_folder_metadata t) e := by
  simp [get_folder_metadata, List.foldl_append]

/-- Per-field effect of one merge step: a sub-field is overwritten exactly
when the directory's document sets it (truthily for names, by presence for
dates and coordinates). -/
theorem mergeStep_proj (r : FolderMetadata) (e : String × FolderMetadata) :
    ((mergeStep r e).place.bind (fun p => p.country) =
      (if truthyStr (e.2.place.bind (fun p => p.country)) then
        e.2.place.bind (fun p => p.country) else r.place.bind (fun p => p.country))) ∧
    ((mergeStep r e).place.bind (fun p => p.state) =
      (if truthyStr (e.2.place.bind (fun p => p.state)) then
        e.2.place.bind (fun p => p.state) else r.place.bind (fun p => p.state))) ∧
    ((mergeStep r e).place.bind (fun p => p.city) =
      (if truthyStr (e.2.place.bind (fun p => p.city)) then
        e.2.place.bind (fun p => p.city) else r.place.bind (fun p => p.city))) ∧
    ((mergeStep r e).place.bind (fun p => p.street) =
      (if truthyStr (e.2.place.bind (fun p => p.street)) then
        e.2.place.bind (fun p => p.street) else r.place.bind (fun p => p.street))) ∧
    ((mergeStep r e).place.bind (fun p => p.lat) =
      (if (e.2.place.bind (fun p => p.lat)).isSome then
        e.2.place.bind (fun p => p.lat) else r.place.bind (fun p => p.lat))) ∧
    ((mergeStep r e).place.bind (fun p => p.lon) =
      (if (e.2.place.bind (fun p => p.lon)).isSome then
        e.2.place.bind (fun p => p.lon) else r.place.bind (fun p => p.lon))) ∧
    ((mergeStep r e).date_range.bind (fun d => d.not_earlier_than) =
      (if (e.2.date_range.bind (fun d => d.not_earlier_than)).isSome then
        e.2.date_range.bind (fun d => d.not_earlier_than)
      else r.date_range.bind (fun d => d.not_earlier_than))) ∧
    ((mergeStep r e).date_range.bind (fun d => d.not_later_than) =
      (if (e.2.date_range.bind (fun d => d.not_later_than)).isSome then
        e.2.date_range.bind (fun d => d.not_later_than)
      else r.date_range.bind (fun d => d.not_later_than))) := by
  rcases e with ⟨folder, m⟩
  rcases hp : m.place with _ | p <;> rcases hd : m.date_range with _ | d <;>
    rcases hr : r.place with _ | q <;> rcases hrd : r.date_range with _ | rd <;>
      simp [mergeStep, hp, hd, hr, hrd, truthyStr] <;>
        split_ifs <;> try simp_all

/-- A sidecar document setting only `city = X`. -/
def mCityX : FolderMetadata := { place := some { city := some "X" } }

/-- A sidecar document setting only `city = Y`. -/
def mCityY : FolderMetadata := { place := some { city := some "Y" } }

/-- C8: merging applies sidecar documents in root-to-leaf order with each
date sub-field and each place sub-field overwritten independently exactly
when a directory's document sets it, so every sub-field resolves to the
closest ancestor's explicit value; in particular with city=Y at `/a/b` and
city=X at `/a`, a file under `/a/b` resolves to city Y while a file under
`/a` resolves to city X. -/
theorem folder_merge_closest_ancestor :
    (∀ stack : List (String × FolderMetadata),
      ((get_folder_metadata stack).place.bind (fun p => p.country) =
        closestTruthy (stack.map (fun e => e.2.place.bind (fun p => p.country)))) ∧
      ((get_folder_metadata stack).place.bind (fun p => p.state) =
        closestTruthy (stack.map (fun e => e.2.place.bind (fun p => p.state)))) ∧
      ((get_folder_metadata stack).place.bind (fun p => p.city) =
        closestTruthy (stack.map (fun e => e.2.place.bind (fun p => p.city)))) ∧
      ((get_folder_metadata stack).place.bind (fun p => p.street) =
        closestTruthy (stack.map (fun e => e.2.place.bind (fun p => p.street)))) ∧
      ((get_folder_metadata stack).place.bind (fun p => p.lat) =
        closestSome (stack.map (fun e => e.2.place.bind (fun p => p.lat)))) ∧
      ((get_folder_metadata stack).place.bind (fun p => p.lon) =
        closestSome (stack.map (fun e => e.2.place.bind (fun p => p.lon)))) ∧
      ((get_folder_metadata stack).date_range.bind (fun d => d.not_earlier_than) =
        closestSome (stack.map (fun e => e.2.date_range.bind (fun d => d.not_earlier_than)))) ∧
      ((get_folder_metadata stack).date_range.bind (fun d => d.not_later_than) =
        closestSome (stack.map (fun e => e.2.date_range.bind (fun d => d.not_later_than))))) ∧
    (get_folder_metadata [("/a/b", mCityY), ("/a", mCityX)]).place.bind
      (fun p => p.city) = some "Y" ∧
    (get_folder_metadata [("/a", mCityX)]).place.bind (fun p => p.city) = some "X" := by
  refine ⟨?_, rfl, rfl⟩
  intro stack
  induction stack with
  | nil => exact ⟨rfl, rfl, rfl, rfl, rfl, rfl, rfl, rfl⟩
  | cons e t ih =>
    obtain ⟨i1, i2, i3, i4, i5, i6, i7, i8⟩ := ih
    obtain ⟨m1, m2, m3, m4, m5, m6, m7, m8⟩ := mergeStep_proj (get_folder_metadata t) e
    rw [get_folder_metadata_cons]
    refine ⟨?_, ?_, ?_, ?_, ?_, ?_, ?_, ?_⟩ <;>
      simp only [m1, m2, m3, m4, m5, m6, m7, m8, i1, i2, i3, i4, i5, i6, i7, i8,
        List.map_cons, closestTruthy, closestSome]

/-! ## C1 — manual-edit monotonicity -/

theorem applyOps_cons (db : Database) (op : IngestOp) (rest : List IngestOp) :
    db.applyOps (op :: rest) = (db.applyOp op).applyOps rest := rfl

theorem get_or_create_place_photos (db : Database) (a b : String) (t : PlaceType)
    (par : Option Nat) : (db.get_or_create_place a b t par).2.photos = db.photos := by
  cases h : db.places.find? (fun p => p.name_sv == a && p.parent_id == par) <;>
    simp [Database.get_or_create_place, h]

theorem get_or_create_place_edits (db : Database) (a b : String) (t : PlaceType)
    (par : Option Nat) :
    (db.get_or_create_place a b t par).2.edit_history = db.edit_history := by
  cases h : db.places.find? (fun p => p.name_sv == a && p.parent_id == par) <;>
    simp [Database.get_or_create_place, h]

theorem create_place_hierarchy_photos (db : Database)
    (c s ci st : Option (String × String)) :
    (db.create_place_hierarchy c s ci st).2.photos = db.photos := by
  rcases c with _ | ⟨c1, c2⟩ <;> rcases s with _ | ⟨s1, s2⟩ <;>
    rcases ci with _ | ⟨i1, i2⟩ <;> rcases st with _ | ⟨t1, t2⟩ <;>
      simp [Database.create_place_hierarchy, get_or_create_place_photos]

theorem create_place_hierarchy_edits (db : Database)
    (c s ci st : Option (String × String)) :
    (db.create_place_hierarchy c s ci st).2.edit_history = db.edit_history := by
  rcases c with _ | ⟨c1, c2⟩ <;> rcases s with _ | ⟨s1, s2⟩ <;>
    rcases ci with _ | ⟨i1, i2⟩ <;> rcases st with _ | ⟨t1, t2⟩ <;>
      simp [Database.create_place_hierarchy, get_or_create_place_edits]

theorem create_exif_metadata_photos (db : Database) (pid : String) (exif : ExifData) :
    (db.create_exif_metadata pid exif).photos = db.photos := by
  rw [Database.create_exif_metadata]; split <;> rfl

theorem create_exif_metadata_edits (db : Database) (pid : String) (exif : ExifData) :
    (db.create_exif_metadata pid exif).edit_history = db.edit_history := by
  rw [Database.create_exif_metadata]; split <;> rfl

theorem create_image_embedding_photos (db : Database) (pid : String) (v : List ℚ) :
    (db.create_image_embedding pid v).photos = db.photos := by
  rw [Database.create_image_embedding]; split <;> rfl

theorem create_image_embedding_edits (db : Database) (pid : String) (v : List ℚ) :
    (db.create_image_embedding pid v).edit_history = db.edit_history := by
  rw [Database.create_image_embedding]; split <;> rfl

theorem create_photo_edits (db : Database) (pid fn : String)
    (dne dnl : Option Int) (pl : Option Nat) (w h : Option Nat) (now : Int) :
    (db.create_photo pid fn dne dnl pl w h now).edit_history = db.edit_history := by
  rw [Database.create_photo]; split <;> rfl

theorem photo_exists_iff (db : Database) (p : String) :
    db.photo_exists p = true ↔ (db.photoById p).isSome := by
  simp [Database.photo_exists, Database.photoById, List.any_eq_true]

theorem has_manual_edits_of_mem (db : Database) (p t : String)
    (h : (p, t) ∈ db.edit_history) : db.has_manual_edits p t = true := by
  simp only [Database.has_manual_edits, List.any_eq_true]
  exact ⟨(p, t), h, by simp⟩

/-- Searching by id through a map whose function preserves ids. -/
theorem find?_map_id_preserving {g : PhotoRow → PhotoRow}
    (hg : ∀ r, (g r).id = r.id) (l : List PhotoRow) (q : String) :
    (l.map g).find? (fun r => r.id == q) = (l.find? (fun r => r.id == q)).map g := by
  rw [List.find?_map]
  have hpred : ((fun r : PhotoRow => r.id == q) ∘ g) = (fun r : PhotoRow => r.id == q) := by
    funext r
    simp [Function.comp_apply, hg r]
  rw [hpred]

/-- After `create_photo` for `pid`, the row found for any other id `q` is
untouched. -/
theorem create_photo_photoById_other (db : Database) (pid fn : String)
    (dne dnl : Option Int) (pl : Option Nat) (w h : Option Nat) (now : Int)
    (q : String) (hq : q ≠ pid) :
    (db.create_photo pid fn dne dnl pl w h now).photoById q = db.photoById q := by
  simp only [Database.create_photo, Database.photoById]
  split
  · rw [find?_map_id_preserving (fun r => by split <;> rfl)]
    rcases hfind : db.photos.find? (fun r => r.id == q) with _ | r
    · rw [hfind]; rfl
    · have hrq : r.id = q := by simpa using List.find?_some hfind
      have hbeq : (r.id == pid) = false := by
        simp only [beq_eq_false_iff_ne, ne_eq, hrq]
        exact hq
      rw [hfind]
      simp only [Option.map_some', Option.some.injEq]
      rw [if_neg (by simp [hbeq])]
  · rw [List.find?_append]
    have hbeq : ((pid == q) : Bool) = false := by
      simp only [beq_eq_false_iff_ne, ne_eq]
      exact fun hc => hq hc.symm
    simp [hbeq]

/-- `create_photo` keeps every previously present row findable. -/
theorem create_photo_photoById_isSome (db : Database) (pid fn : String)
    (dne dnl : Option Int) (pl : Option Nat) (w h : Option Nat) (now : Int)
    (q : String) (hq : (db.photoById q).isSome) :
    ((db.create_photo pid fn dne dnl pl w h now).photoById q).isSome := by
  by_cases hqp : q = pid
  · subst hqp
    have hex : db.photo_exists q = true := (photo_exists_iff db q).mpr hq
    simp only [Database.create_photo, hex, if_true, Database.photoById]
    rw [find?_map_id_preserving (fun r => by split <;> rfl)]
    rw [Database.photoById] at hq
    rcases hfind : db.photos.find? (fun r => r.id == q) with _ | r
    · rw [hfind] at hq; cases hq
    · rw [hfind]; simp
  · rw [create_photo_photoById_other db pid fn dne dnl pl w h now q hqp]
    exact hq

/-- `create_photo` under a date lock leaves the date bounds of the existing
row untouched. -/
theorem create_photo_locked_date (db : Database) (pid fn : String)
    (dne dnl : Option Int) (pl : Option Nat) (w h : Option Nat) (now : Int)
    (hex : (db.photoById pid).isSome) (hl : (pid, "date") ∈ db.edit_history) :
    ((db.create_photo pid fn dne dnl pl w h now).photoById pid).map
        (fun r => (r.date_not_earlier_than, r.date_not_later_than)) =
      (db.photoById pid).map
        (fun r => (r.date_not_earlier_than, r.date_not_later_than)) := by
  have hexb : db.photo_exists pid = true := (photo_exists_iff db pid).mpr hex
  have hman : db.has_manual_edits pid "date" = true :=
    has_manual_edits_of_mem db pid "date" hl
  simp only [Database.create_photo, hexb, hman, Bool.true_and, if_true,
    Bool.and_self, reduceIte, Database.photoById]
  rw [find?_map_id_preserving (fun r => by split <;> rfl)]
  rcases hfind : db.photos.find? (fun r => r.id == pid) with _ | r
  · rw [hfind]; rfl
  · have hrq : (r.id == pid) = true := by simpa using List.find?_some hfind
    have hre : r.id = pid := by simpa using hrq
    rw [hfind]
    simp [hre, coalesce]

/-- `create_photo` under a place lock leaves the place of the existing row
untouched. -/
theorem create_photo_locked_place (db : Database) (pid fn : String)
    (dne dnl : Option Int) (pl : Option Nat) (w h : Option Nat) (now : Int)
    (hex : (db.photoById pid).isSome) (hl : (pid, "place") ∈ db.edit_history) :
    ((db.create_photo pid fn dne dnl pl w h now).photoById pid).map
        (fun r => r.place_id) =
      (db.photoById pid).map (fun r => r.place_id) := by
  have hexb : db.photo_exists pid = true := (photo_exists_iff db pid).mpr hex
  have hman : db.has_manual_edits pid "place" = true :=
    has_manual_edits_of_mem db pid "place" hl
  simp only [Database.create_photo, hexb, hman, Bool.true_and, if_true,
    Bool.and_self, reduceIte, Database.photoById]
  rw [find?_map_id_preserving (fun r => by split <;> rfl)]
  rcases hfind : db.photos.find? (fun r => r.id == pid) with _ | r
  · rw [hfind]; rfl
  · have hrq : (r.id == pid) = true := by simpa using List.find?_some hfind
    have hre : r.id = pid := by simpa using hrq
    rw [hfind]
    simp [hre, coalesce]

/-- One automatic operation: it never writes `edit_history`, keeps every
photo row findable, and under a manual-edit lock leaves the locked fields of
that photo unchanged. -/
theorem applyOp_preserves (db : Database) (op : IngestOp) (p : String) :
    (db.applyOp op).edit_history = db.edit_history ∧
    ((db.photoById p).isSome → ((db.applyOp op).photoById p).isSome) ∧
    ((db.photoById p).isSome → (p, "date") ∈ db.edit_history →
      ((db.applyOp op).photoById p).map
          (fun r => (r.date_not_earlier_than, r.date_not_later_than)) =
        (db.photoById p).map
          (fun r => (r.date_not_earlier_than, r.date_not_later_than))) ∧
    ((db.photoById p).isSome → (p, "place") ∈ db.edit_history →
      ((db.applyOp op).photoById p).map (fun r => r.place_id) =
        (db.photoById p).map (fun r => r.place_id)) := by
  cases op with
  | createPhoto pid fn dne dnl pl w h now =>
    refine ⟨create_photo_edits db pid fn dne dnl pl w h now,
      fun hq => create_photo_photoById_isSome db pid fn dne dnl pl w h now p hq,
      fun hq hl => ?_, fun hq hl => ?_⟩
    · by_cases hpq : p = pid
      · subst hpq
        exact create_photo_locked_date db p fn dne dnl pl w h now hq hl
      · rw [show (db.applyOp (.createPhoto pid fn dne dnl pl w h now)).photoById p =
            db.photoById p from create_photo_photoById_other db pid fn dne dnl pl w h now p hpq]
    · by_cases hpq : p = pid
      · subst hpq
        exact create_photo_locked_place db p fn dne dnl pl w h now hq hl
      · rw [show (db.applyOp (.createPhoto pid fn dne dnl pl w h now)).photoById p =
            db.photoById p from create_photo_photoById_other db pid fn dne dnl pl w h now p hpq]
  | createExif pid exif =>
    have hp : (db.applyOp (.createExif pid exif)).photoById p = db.photoById p := by
      rw [Database.photoById, Database.photoById]
      rw [show (db.applyOp (.createExif pid exif)).photos = db.photos from
        create_exif_metadata_photos db pid exif]
    exact ⟨create_exif_metadata_edits db pid exif,
      fun hq => hp ▸ hq, fun _ _ => by rw [hp], fun _ _ => by rw [hp]⟩
  | createHierarchy c s ci st =>
    have hp : (db.applyOp (.createHierarchy c s ci st)).photoById p = db.photoById p := by
      rw [Database.photoById, Database.photoById]
      rw [show (db.applyOp (.createHierarchy c s ci st)).photos = db.photos from
        create_place_hierarchy_photos db c s ci st]
    exact ⟨create_place_hierarchy_edits db c s ci st,
      fun hq => hp ▸ hq, fun _ _ => by rw [hp], fun _ _ => by rw [hp]⟩
  | createEmbedding pid v =>
    have hp : (db.applyOp (.createEmbedding pid v)).photoById p = db.photoById p := by
      rw [Database.photoById, Database.photoById]
      rw [show (db.applyOp (.createEmbedding pid v)).photos = db.photos from
        create_image_embedding_photos db pid v]
    exact ⟨create_image_embedding_edits db pid v,
      fun hq => hp ▸ hq, fun _ _ => by rw [hp], fun _ _ => by rw [hp]⟩
  | createFace pid x y w h v =>
    exact ⟨rfl, fun hq => hq, fun _ _ => rfl, fun _ _ => rfl⟩
  | updateFaceCluster fid cid =>
    exact ⟨rfl, fun hq => hq, fun _ _ => rfl, fun _ _ => rfl⟩

/-- C1: manual-edit monotonicity — for a cataloged photo, once an
edit-history row exists for (photo, "date"), no sequence of automatic
catalog operations changes its `date_not_earlier_than` or
`date_not_later_than`; likewise, once a lock exists for (photo, "place"),
none changes its `place_id`. -/
theorem manual_edit_monotonicity (db : Database) (ops : List IngestOp) (p : String)
    (hrow : (db.photoById p).isSome) :
    ((p, "date") ∈ db.edit_history →
      ((db.applyOps ops).photoById p).map
          (fun r => (r.date_not_earlier_than, r.date_not_later_than)) =
        (db.photoById p).map
          (fun r => (r.date_not_earlier_than, r.date_not_later_than))) ∧
    ((p, "place") ∈ db.edit_history →
      ((db.applyOps ops).photoById p).map (fun r => r.place_id) =
        (db.photoById p).map (fun r => r.place_id)) := by
  induction ops generalizing db with
  | nil => exact ⟨fun _ => rfl, fun _ => rfl⟩
  | cons op rest ih =>
    obtain ⟨he, hs, hd, hp2⟩ := applyOp_preserves db op p
    have ih2 := ih (db.applyOp op) (hs hrow)
    constructor
    · intro hld
      rw [applyOps_cons, ih2.1 (by rw [he]; exact hld)]
      exact hd hrow hld
    · intro hlp
      rw [applyOps_cons, ih2.2 (by rw [he]; exact hlp)]
      exact hp2 hrow hlp

/-- A catalog with one photo locked for both date and place. -/
def dbLocked : Database :=
  { photos := [{ id := "h", original_filename := "a.jpg"
                 date_not_earlier_than := some 100, date_not_later_than := some 200
                 place_id := some 5 }]
    edit_history := [("h", "date"), ("h", "place")] }

/-- A later automatic run trying to overwrite every field of the locked
photo. -/
def opsLocked : List IngestOp :=
  [.createPhoto "h" "a.jpg" (some 999) (some 888) (some 9) none none 7,
   .createExif "h" {}, .createEmbedding "h" [], .createFace "h" 0 0 1 1 [],
   .createHierarchy (some ("SE", "SE")) none none none,
   .updateFaceCluster 0 "cluster_1"]

/-- C1 witness: the locked photo keeps its date bounds across a run that
tries to rewrite them. -/
theorem manual_edit_monotonicity_witness :
    ((dbLocked.applyOps opsLocked).photoById "h").map
        (fun r => (r.date_not_earlier_than, r.date_not_later_than)) =
      (dbLocked.photoById "h").map
        (fun r => (r.date_not_earlier_than, r.date_not_later_than)) :=
  (manual_edit_monotonicity dbLocked opsLocked "h" (by decide)).1 (by decide)

/-! ## C9 — place-forest type invariant -/

/-- One call to `create_place_hierarchy` as issued by the resolver
(main.py lines 145-150 and 158-163). -/
structure HierarchyCall where
  country : Option (String × String) := none
  state : Option (String × String) := none
  city : Option (String × String) := none
  street : Option (String × String) := none

/-- Apply one hierarchy-creation call to the catalog. -/
def applyHierarchy (db : Database) (c : HierarchyCall) : Database :=
  (db.create_place_hierarchy c.country c.state c.city c.street).2

/-- Apply a sequence of hierarchy-creation calls. -/
def applyHierarchies (db : Database) (cs : List HierarchyCall) : Database :=
  cs.foldl applyHierarchy db

/-- `y` is the parent row of `x` in the place forest. -/
def isParentRow (db : Database) (x y : PlaceRow) : Prop :=
  x ∈ db.places ∧ y ∈ db.places ∧ x.parent_id = some y.id

/-- A hierarchy call supplies contiguous levels from the top: a street
requires a city, a city a state, a state a country. -/
def contiguousLevels (c : HierarchyCall) : Prop :=
  (c.state.isSome → c.country.isSome) ∧ (c.city.isSome → c.state.isSome) ∧
  (c.street.isSome → c.city.isSome)

/-- The inductive well-formedness of the place forest: ids are fresh and
unique, roots are countries, and every child's type is exactly one level
narrower than its parent's. -/
def placesWF (db : Database) : Prop :=
  (∀ p ∈ db.places, p.id < db.next_uuid) ∧
  (∀ p ∈ db.places, ∀ q ∈ db.places, p.id = q.id → p = q) ∧
  (∀ p ∈ db.places,
    (p.parent_id = none → p.place_type = .country) ∧
    (∀ pid, p.parent_id = some pid →
      ∃ q ∈ db.places, q.id = pid ∧ q.place_type.rank + 1 = p.place_type.rank))

theorem placesWF_empty : placesWF ({} : Database) := by
  refine ⟨?_, ?_, ?_⟩ <;> intro p hp <;> cases hp

/-- `get_or_create_place` preserves the forest invariant when its parent
argument is either absent (for a country) or the id of a row exactly one
level broader, and the returned id names a row of the requested level. -/
theorem get_or_create_place_wf (db : Database) (a b : String) (t : PlaceType)
    (par : Option Nat) (hwf : placesWF db)
    (hpar_none : par = none → t = .country)
    (hpar_some : ∀ pid, par = some pid →
      ∃ q ∈ db.places, q.id = pid ∧ q.place_type.rank + 1 = t.rank) :
    placesWF (db.get_or_create_place a b t par).2 ∧
    (∀ q ∈ db.places, q ∈ (db.get_or_create_place a b t par).2.places) ∧
    (∃ row ∈ (db.get_or_create_place a b t par).2.places,
      row.id = (db.get_or_create_place a b t par).1 ∧
      row.place_type.rank = t.rank ∧ row.parent_id = par) := by
  obtain ⟨hfresh, huniq, hrel⟩ := hwf
  rcases hfind : db.places.find? (fun p => p.name_sv == a && p.parent_id == par)
    with _ | row
  · -- create a new row
    simp only [Database.get_or_create_place, hfind]
    refine ⟨⟨?_, ?_, ?_⟩, ?_, ?_⟩
    · intro p hp
      rcases List.mem_append.mp hp with hold | hnew
      · exact Nat.lt_succ_of_lt (hfresh p hold)
      · rcases List.mem_singleton.mp hnew with rfl
        exact Nat.lt_succ_self _
    · intro p hp q hq hpq
      rcases List.mem_append.mp hp with hold1 | hnew1 <;>
        rcases List.mem_append.mp hq with hold2 | hnew2
      · exact huniq p hold1 q hold2 hpq
      · rcases List.mem_singleton.mp hnew2 with rfl
        exact absurd hpq (Nat.ne_of_lt (hfresh p hold1))
      · rcases List.mem_singleton.mp hnew1 with rfl
        exact absurd hpq.symm (Nat.ne_of_lt (hfresh q hold2))
      · rcases List.mem_singleton.mp hnew1 with rfl
        rcases List.mem_singleton.mp hnew2 with rfl
        rfl
    · intro p hp
      rcases List.mem_append.mp hp with hold | hnew
      · refine ⟨(hrel p hold).1, fun pid hpid => ?_⟩
        obtain ⟨q, hq, hqid, hqrank⟩ := (hrel p hold).2 pid hpid
        exact ⟨q, List.mem_append_left _ hq, hqid, hqrank⟩
      · rcases List.mem_singleton.mp hnew with rfl
        refine ⟨fun hn => hpar_none hn, fun pid hpid => ?_⟩
        obtain ⟨q, hq, hqid, hqrank⟩ := hpar_some pid hpid
        exact ⟨q, List.mem_append_left _ hq, hqid, hqrank⟩
    · intro q hq
      exact List.mem_append_left _ hq
    · refine ⟨{ id := db.next_uuid, name_sv := a, name_en := b
                place_type := t, parent_id := par }, ?_, rfl, rfl, rfl⟩
      exact List.mem_append_right _ (List.mem_singleton.mpr rfl)
  · -- found an existing row
    simp only [Database.get_or_create_place, hfind]
    have hmem := List.mem_of_find?_eq_some hfind
    have hprop := List.find?_some hfind
    have hpar : row.parent_id = par := by
      simp only [Bool.and_eq_true, beq_iff_eq] at hprop
      exact hprop.2
    have hrank : row.place_type.rank = t.rank := by
      rcases par with _ | pid
      · have h1 : row.place_type = .country := (hrel row hmem).1 hpar
        rw [h1, hpar_none rfl]
      · obtain ⟨q1, hq1, hq1id, hq1rank⟩ := (hrel row hmem).2 pid hpar
        obtain ⟨q2, hq2, hq2id, hq2rank⟩ := hpar_some pid rfl
        have : q1 = q2 := huniq q1 hq1 q2 hq2 (hq1id.trans hq2id.symm)
        rw [← hq1rank, ← hq2rank, this]
    exact ⟨⟨hfresh, huniq, hrel⟩, fun q hq => hq, row, hmem, rfl, hrank, hpar⟩

/-- One contiguous hierarchy call preserves the forest invariant. -/
theorem create_place_hierarchy_wf (db : Database) (c : HierarchyCall)
    (hwf : placesWF db) (hcont : contiguousLevels c) :
    placesWF (applyHierarchy db c) := by
  obtain ⟨h1, h2, h3⟩ := hcont
  rw [applyHierarchy, Database.create_place_hierarchy.eq_def]
  rcases hco : c.country with _ | ⟨c1, c2⟩ <;> rcases hst : c.state with _ | ⟨s1, s2⟩ <;>
    rcases hci : c.city with _ | ⟨i1, i2⟩ <;> rcases hsr : c.street with _ | ⟨t1, t2⟩ <;>
      simp only [hco, hst, hci, hsr]
  case intro.intro.none.none.none.none => exact hwf
  -- impossible combinations first
  case intro.intro.none.none.none.some.mk =>
    exact absurd (h3 (by rw [hsr]; rfl)) (by rw [hci]; simp)
  case intro.intro.none.none.some.mk.none =>
    exact absurd (h2 (by rw [hci]; rfl)) (by rw [hst]; simp)
  case intro.intro.none.none.some.mk.some.mk =>
    exact absurd (h2 (by rw [hci]; rfl)) (by rw [hst]; simp)
  case intro.intro.none.some.mk.none.none =>
    exact absurd (h1 (by rw [hst]; rfl)) (by rw [hco]; simp)
  case intro.intro.none.some.mk.none.some.mk =>
    exact absurd (h1 (by rw [hst]; rfl)) (by rw [hco]; simp)
  case intro.intro.none.some.mk.some.mk.none =>
    exact absurd (h1 (by rw [hst]; rfl)) (by rw [hco]; simp)
  case intro.intro.none.some.mk.some.mk.some.mk =>
    exact absurd (h1 (by rw [hst]; rfl)) (by rw [hco]; simp)
  case intro.intro.some.mk.none.none.some.mk =>
    exact absurd (h3 (by rw [hsr]; rfl)) (by rw [hci]; simp)
  case intro.intro.some.mk.none.some.mk.none =>
    exact absurd (h2 (by rw [hci]; rfl)) (by rw [hst]; simp)
  case intro.intro.some.mk.none.some.mk.some.mk =>
    exact absurd (h2 (by rw [hci]; rfl)) (by rw [hst]; simp)
  case intro.intro.some.mk.some.mk.none.some.mk =>
    exact absurd (h3 (by rw [hsr]; rfl)) (by rw [hci]; simp)
  -- country only
  case intro.intro.some.mk.none.none.none =>
    obtain ⟨wf1, _, _⟩ := get_or_create_place_wf db c1 c2 .country none hwf
      (fun _ => rfl) (fun pid h => Option.noConfusion h)
    exact wf1
  -- country, state
  case intro.intro.some.mk.some.mk.none.none =>
    obtain ⟨wf1, _, row0, hm0, hid0, hrk0, _⟩ :=
      get_or_create_place_wf db c1 c2 .country none hwf
        (fun _ => rfl) (fun pid h => Option.noConfusion h)
    obtain ⟨wf2, _, _⟩ :=
      get_or_create_place_wf _ s1 s2 .state
        (some (db.get_or_create_place c1 c2 .country none).1) wf1
        (fun h => Option.noConfusion h)
        (by intro pid h
            injection h with h2
            subst h2
            exact ⟨row0, hm0, hid0, by rw [hrk0]; decide⟩)
    exact wf2
  -- country, state, city
  case intro.intro.some.mk.some.mk.some.mk.none =>
    obtain ⟨wf1, _, row0, hm0, hid0, hrk0, _⟩ :=
      get_or_create_place_wf db c1 c2 .country none hwf
        (fun _ => rfl) (fun pid h => Option.noConfusion h)
    obtain ⟨wf2, _, row1, hm1, hid1, hrk1, _⟩ :=
      get_or_create_place_wf _ s1 s2 .state
        (some (db.get_or_create_place c1 c2 .country none).1) wf1
        (fun h => Option.noConfusion h)
        (by intro pid h
            injection h with h2
            subst h2
            exact ⟨row0, hm0, hid0, by rw [hrk0]; decide⟩)
    obtain ⟨wf3, _, _⟩ :=
      get_or_create_place_wf _ i1 i2 .city
        (some ((db.get_or_create_place c1 c2 .country none).2.get_or_create_place
          s1 s2 .state (some (db.get_or_create_place c1 c2 .country none).1)).1) wf2
        (fun h => Option.noConfusion h)
        (by intro pid h
            injection h with h2
            subst h2
            exact ⟨row1, hm1, hid1, by rw [hrk1]; decide⟩)
    exact wf3
  -- country, state, city, street
  case intro.intro.some.mk.some.mk.some.mk.some.mk =>
    obtain ⟨wf1, _, row0, hm0, hid0, hrk0, _⟩ :=
      get_or_create_place_wf db c1 c2 .country none hwf
        (fun _ => rfl) (fun pid h => Option.noConfusion h)
    obtain ⟨wf2, _, row1, hm1, hid1, hrk1, _⟩ :=
      get_or_create_place_wf _ s1 s2 .state
        (some (db.get_or_create_place c1 c2 .country none).1) wf1
        (fun h => Option.noConfusion h)
        (by intro pid h
            injection h with h2
            subst h2
            exact ⟨row0, hm0, hid0, by rw [hrk0]; decide⟩)
    obtain ⟨wf3, _, row2, hm2, hid2, hrk2, _⟩ :=
      get_or_create_place_wf _ i1 i2 .city
        (some ((db.get_or_create_place c1 c2 .country none).2.get_or_create_place
          s1 s2 .state (some (db.get_or_create_place c1 c2 .country none).1)).1) wf2
        (fun h => Option.noConfusion h)
        (by intro pid h
            injection h with h2
            subst h2
            exact ⟨row1, hm1, hid1, by rw [hrk1]; decide⟩)
    obtain ⟨wf4, _, _⟩ :=
      get_or_create_place_wf _ t1 t2 .street
        (some (((db.get_or_create_place c1 c2 .country none).2.get_or_create_place
          s1 s2 .state
          (some (db.get_or_create_place c1 c2 .country none).1)).2.get_or_create_place
          i1 i2 .city
          (some ((db.get_or_create_place c1 c2 .country none).2.get_or_create_place
            s1 s2 .state (some (db.get_or_create_place c1 c2 .country none).1)).1)).1) wf3
        (fun h => Option.noConfusion h)
        (by intro pid h
            injection h with h2
            subst h2
            exact ⟨row2, hm2, hid2, by rw [hrk2]; decide⟩)
    exact wf4

theorem applyHierarchies_wf (cs : List HierarchyCall) (db : Database)
    (hwf : placesWF db) (hc : ∀ c ∈ cs, contiguousLevels c) :
    placesWF (applyHierarchies db cs) := by
  induction cs generalizing db with
  | nil => exact hwf
  | cons c rest ih =>
    exact ih (applyHierarchy db c)
      (create_place_hierarchy_wf db c hwf (hc c (List.mem_cons_self c rest)))
      (fun d hd => hc d (List.mem_cons_of_mem c hd))

theorem placesWF_parent_lt (db : Database) (hwf : placesWF db) (x y : PlaceRow)
    (hp : isParentRow db x y) : y.place_type.rank < x.place_type.rank := by
  obtain ⟨hx, hy, hxy⟩ := hp
  obtain ⟨q, hqmem, hqid, hqrank⟩ := (hwf.2.2 x hx).2 y.id hxy
  have hqy : q = y := hwf.2.1 q hqmem y hy hqid
  rw [← hqy]
  omega

/-- A configuration hint carrying only a city (legal: `has_hierarchy` only
needs one level). -/
def hintCityOnly : HierarchyCall := { city := some ("Paris", "Paris") }

/-- A later hint whose country shares the name of the earlier top-level
city. -/
def hintCountryState : HierarchyCall :=
  { country := some ("Paris", "Paris"), state := some ("Texas", "Texas") }

/-- The state node created by the second call. -/
def rowTexasState : PlaceRow :=
  { id := 1, name_sv := "Texas", name_en := "Texas", place_type := .state
    parent_id := some 0 }

/-- The top-level city node created by the first call. -/
def rowParisCity : PlaceRow :=
  { id := 0, name_sv := "Paris", name_en := "Paris", place_type := .city
    parent_id := none }

/-- C9 counterexample: two hierarchy creations reachable from configuration
hints — first a city-only hint creating a top-level "Paris" of type city,
then a hint with country "Paris" and state "Texas".  The country lookup is
keyed by (name, parent) without the type, so it finds the city node, and the
new state node gets a CITY as its ancestor: the ancestor is strictly
NARROWER, not broader. -/
theorem place_forest_counterexample :
    isParentRow (applyHierarchies {} [hintCityOnly, hintCountryState])
      rowTexasState rowParisCity ∧
    ¬ rowParisCity.place_type.rank < rowTexasState.place_type.rank := by
  constructor
  · refine ⟨by decide, by decide, by decide⟩
  · decide

/-- C9 amended: in every catalog state reachable by hierarchy creations in
which each call supplies a contiguous prefix of levels starting at country
(as geocoding results with no missing intermediate level do, but partial
configuration hints need not), every node's ancestors are strictly broader
place types than the node itself. -/
theorem place_forest_types (calls : List HierarchyCall)
    (hc : ∀ c ∈ calls, contiguousLevels c) :
    ∀ x y : PlaceRow,
      Relation.TransGen (isParentRow (applyHierarchies {} calls)) x y →
      y.place_type.rank < x.place_type.rank := by
  have hwf := applyHierarchies_wf calls {} placesWF_empty hc
  intro x y hxy
  induction hxy with
  | single h => exact placesWF_parent_lt _ hwf _ _ h
  | tail hxy h ih => exact lt_trans (placesWF_parent_lt _ hwf _ _ h) ih

/-- A contiguous country→state→city call. -/
def wfCall : HierarchyCall :=
  { country := some ("SE", "SE"), state := some ("AB", "AB")
    city := some ("STHLM", "STHLM") }

/-- The country row created by `wfCall`. -/
def wRowCountry : PlaceRow :=
  { id := 0, name_sv := "SE", name_en := "SE", place_type := .country
    parent_id := none }

/-- The state row created by `wfCall`. -/
def wRowState : PlaceRow :=
  { id := 1, name_sv := "AB", name_en := "AB", place_type := .state
    parent_id := some 0 }

/-- The city row created by `wfCall`. -/
def wRowCity : PlaceRow :=
  { id := 2, name_sv := "STHLM", name_en := "STHLM", place_type := .city
    parent_id := some 1 }

/-- C9 witness: in the forest built by one contiguous call, the country
ancestor of the city node is strictly broader. -/
theorem place_forest_types_witness :
    wRowCountry.place_type.rank < wRowCity.place_type.rank :=
  place_forest_types [wfCall]
    (by intro c hcm
        rw [List.mem_singleton] at hcm
        subst hcm
        exact ⟨fun _ => by decide, fun _ => by decide, fun _ => by decide⟩) _ _
    (Relation.TransGen.tail
      (Relation.TransGen.single
        (show isParentRow (applyHierarchies {} [wfCall]) wRowCity wRowState from
          ⟨by decide, by decide, by decide⟩))
      (show isParentRow (applyHierarchies {} [wfCall]) wRowState wRowCountry from
        ⟨by decide, by decide, by decide⟩))

/-! ## C5 — zero-faces handling -/

theorem uploadStage_ctx_photo_ids (ctx : Ctx) (storage : BlobStore) (pid : String)
    (ho ht hd : Bool) (th dv : Option Unit) :
    (uploadStage ctx storage pid ho ht hd th dv).1.existing_photo_ids =
      ctx.existing_photo_ids := by
  simp only [uploadStage]
  repeat' split
  all_goals rfl

theorem uploadStage_ctx_embeddings (ctx : Ctx) (storage : BlobStore) (pid : String)
    (ho ht hd : Bool) (th dv : Option Unit) :
    (uploadStage ctx storage pid ho ht hd th dv).1.existing_embeddings =
      ctx.existing_embeddings := by
  simp only [uploadStage]
  repeat' split
  all_goals rfl

theorem uploadStage_ctx_places (ctx : Ctx) (storage : BlobStore) (pid : String)
    (ho ht hd : Bool) (th dv : Option Unit) :
    (uploadStage ctx storage pid ho ht hd th dv).1.existing_photo_places =
      ctx.existing_photo_places := by
  simp only [uploadStage]
  repeat' split
  all_goals rfl

theorem uploadStage_ctx_embedder (ctx : Ctx) (storage : BlobStore) (pid : String)
    (ho ht hd : Bool) (th dv : Option Unit) :
    (uploadStage ctx storage pid ho ht hd th dv).1.embedder = ctx.embedder := by
  simp only [uploadStage]
  repeat' split
  all_goals rfl

theorem uploadStage_ctx_face_detector (ctx : Ctx) (storage : BlobStore) (pid : String)
    (ho ht hd : Bool) (th dv : Option Unit) :
    (uploadStage ctx storage pid ho ht hd th dv).1.face_detector =
      ctx.face_detector := by
  simp only [uploadStage]
  repeat' split
  all_goals rfl

theorem placeStage_ctx_photo_ids (ctx : Ctx) (db : Database) (geo : Geocoder)
    (pid : String) (exif : ExifData) (hint : Option PlaceHint) :
    (placeStage ctx db geo pid exif hint).2.1.existing_photo_ids =
      ctx.existing_photo_ids := by
  simp only [placeStage]
  repeat' split
  all_goals rfl

theorem placeStage_ctx_embeddings (ctx : Ctx) (db : Database) (geo : Geocoder)
    (pid : String) (exif : ExifData) (hint : Option PlaceHint) :
    (placeStage ctx db geo pid exif hint).2.1.existing_embeddings =
      ctx.existing_embeddings := by
  simp only [placeStage]
  repeat' split
  all_goals rfl

theorem placeStage_ctx_embedder (ctx : Ctx) (db : Database) (geo : Geocoder)
    (pid : String) (exif : ExifData) (hint : Option PlaceHint) :
    (placeStage ctx db geo pid exif hint).2.1.embedder = ctx.embedder := by
  simp only [placeStage]
  repeat' split
  all_goals rfl

theorem placeStage_ctx_face_detector (ctx : Ctx) (db : Database) (geo : Geocoder)
    (pid : String) (exif : ExifData) (hint : Option PlaceHint) :
    (placeStage ctx db geo pid exif hint).2.1.face_detector = ctx.face_detector := by
  simp only [placeStage]
  repeat' split
  all_goals rfl

theorem embedStage_ctx_photo_ids (ctx : Ctx) (db : Database) (pid : String) :
    (embedStage ctx db pid).1.existing_photo_ids = ctx.existing_photo_ids := by
  simp only [embedStage]
  repeat' split
  all_goals rfl

theorem embedStage_ctx_face_detector (ctx : Ctx) (db : Database) (pid : String) :
    (embedStage ctx db pid).1.face_detector = ctx.face_detector := by
  simp only [embedStage]
  repeat' split
  all_goals rfl

/-- In batch mode, a photo already present in the pre-fetched catalog
snapshot never reaches the detector. -/
theorem faceStage_calls_zero (ctx : Ctx) (db : Database) (pid : String)
    (ids : List String) (hids : ctx.existing_photo_ids = some ids)
    (hmem : ids.contains pid = true) : (faceStage ctx db pid).2.2 = 0 := by
  rcases hdet : ctx.face_detector with _ | det
  · simp [faceStage, hdet]
  · have hm2 : pid ∈ ids := by simpa using hmem
    simp [faceStage, hdet, hids, hm2]

/-- C5 counterexample: a photo that is in the catalog with zero face rows —
i.e. face detection was attempted and found no faces — is re-attempted both
by single-file mode (which gates on `faces_exist`, true only for ≥ 1 face)
and by the `detect-faces` stage (which skips only photos with ≥ 1 face):
the detector runs once more in each. -/
theorem zero_faces_reattempted_counterexample :
    (singleUploadRun none (some detNone) false svcNone fPlain storeH
        dbZeroFaces 0).2.face_detect_calls = 1 ∧
    (detectFacesRun detNone [fPlain] dbZeroFaces).2 = 1 := by
  constructor <;> decide

/-- C5 amended: only batch mode treats "photo already cataloged" as
"faces already attempted", so there a photo with zero detected faces is
never re-attempted; in single-file mode and the `detect-faces` stage the
signal is "has at least one face row", so zero-face photos ARE re-attempted
there. -/
theorem faces_not_reattempted_in_batch (st : PipelineState) (f : FileSig)
    (now : Int) (ids : List String)
    (hids : st.ctx.existing_photo_ids = some ids)
    (hmem : ids.contains f.photo_id = true) :
    (process_photo st f now).2.face_detect_calls = 0 := by
  rw [process_photo]
  by_cases he : earlyExit st.ctx f.photo_id = true
  · simp [he]
  · simp only [he, if_false, Bool.false_eq_true]
    refine faceStage_calls_zero _ _ _ ids ?_ hmem
    rw [embedStage_ctx_photo_ids, placeStage_ctx_photo_ids, uploadStage_ctx_photo_ids]
    exact hids

/-- A batch-mode state whose snapshots already hold photo `"h"`. -/
def stBatchH : PipelineState :=
  { ctx := { face_detector := some detNone
             existing_originals := some ["h"], existing_thumbnails := some ["h"]
             existing_defaults := some ["h"], existing_photo_ids := some ["h"] }
    storage := storeH, db := dbZeroFaces }

/-- C5 witness: in batch mode the cataloged zero-faces photo is not
re-attempted. -/
theorem faces_not_reattempted_in_batch_witness :
    (process_photo stBatchH fPlain 0).2.face_detect_calls = 0 :=
  faces_not_reattempted_in_batch stBatchH fPlain 0 ["h"] rfl (by decide)

/-! ## C4 — snapshot self-consistency: supporting lemmas -/

theorem uploadStage_ctx_geocoder_on (ctx : Ctx) (storage : BlobStore) (pid : String)
    (ho ht hd : Bool) (th dv : Option Unit) :
    (uploadStage ctx storage pid ho ht hd th dv).1.geocoder_on = ctx.geocoder_on := by
  simp only [uploadStage]
  repeat' split
  all_goals rfl

theorem uploadStage_ctx_svc (ctx : Ctx) (storage : BlobStore) (pid : String)
    (ho ht hd : Bool) (th dv : Option Unit) :
    (uploadStage ctx storage pid ho ht hd th dv).1.svc = ctx.svc := by
  simp only [uploadStage]
  repeat' split
  all_goals rfl

/-- When all three blobs exist, the upload stage does nothing. -/
theorem uploadStage_all_true (ctx : Ctx) (storage : BlobStore) (pid : String)
    (th dv : Option Unit) :
    uploadStage ctx storage pid true true true th dv = (ctx, storage, 0) := by
  simp [uploadStage]

theorem create_photo_places (db : Database) (pid fn : String) (dne dnl : Option Int)
    (pl : Option Nat) (w h : Option Nat) (now : Int) :
    (db.create_photo pid fn dne dnl pl w h now).places = db.places := by
  rw [Database.create_photo]; split <;> rfl

theorem create_photo_image_embeddings (db : Database) (pid fn : String)
    (dne dnl : Option Int) (pl : Option Nat) (w h : Option Nat) (now : Int) :
    (db.create_photo pid fn dne dnl pl w h now).image_embeddings =
      db.image_embeddings := by
  rw [Database.create_photo]; split <;> rfl

theorem create_exif_metadata_places (db : Database) (pid : String) (exif : ExifData) :
    (db.create_exif_metadata pid exif).places = db.places := by
  rw [Database.create_exif_metadata]; split <;> rfl

theorem create_exif_metadata_image_embeddings (db : Database) (pid : String)
    (exif : ExifData) :
    (db.create_exif_metadata pid exif).image_embeddings = db.image_embeddings := by
  rw [Database.create_exif_metadata]; split <;> rfl

theorem create_image_embedding_places (db : Database) (pid : String) (v : List ℚ) :
    (db.create_image_embedding pid v).places = db.places := by
  rw [Database.create_image_embedding]; split <;> rfl

theorem faces_fold_places (faces : List FaceDet) (db : Database) (pid : String) :
    (faces.foldl
      (fun d face =>
        (d.create_face pid face.bbox_x face.bbox_y face.bbox_width
          face.bbox_height face.embedding).2) db).places = db.places := by
  induction faces generalizing db with
  | nil => rfl
  | cons face rest ih => exact ih _

theorem faces_fold_image_embeddings (faces : List FaceDet) (db : Database)
    (pid : String) :
    (faces.foldl
      (fun d face =>
        (d.create_face pid face.bbox_x face.bbox_y face.bbox_width
          face.bbox_height face.embedding).2) db).image_embeddings =
      db.image_embeddings := by
  induction faces generalizing db with
  | nil => rfl
  | cons face rest ih => exact ih _

theorem faceStage_places (ctx : Ctx) (db : Database) (pid : String) :
    (faceStage ctx db pid).1.places = db.places := by
  rcases hdet : ctx.face_detector with _ | det
  · simp [faceStage, hdet]
  · simp only [faceStage, hdet]
    split
    · rfl
    · exact faces_fold_places _ _ _

theorem faceStage_image_embeddings (ctx : Ctx) (db : Database) (pid : String) :
    (faceStage ctx db pid).1.image_embeddings = db.image_embeddings := by
  rcases hdet : ctx.face_detector with _ | det
  · simp [faceStage, hdet]
  · simp only [faceStage, hdet]
    split
    · rfl
    · exact faces_fold_image_embeddings _ _ _

theorem embedStage_places (ctx : Ctx) (db : Database) (pid : String) :
    (embedStage ctx db pid).2.1.places = db.places := by
  rcases hge : ctx.embedder with _ | gen
  · simp [embedStage, hge]
  · simp only [embedStage, hge]
    split
    · rfl
    · exact create_image_embedding_places _ _ _

/-- When the context's embedder, if any, already has the photo in its
snapshot, the embedding stage does nothing. -/
theorem embedStage_skip (ctx : Ctx) (db : Database) (pid : String)
    (h : ∀ gen, ctx.embedder = some gen →
      ∃ l, ctx.existing_embeddings = some l ∧ pid ∈ l) :
    embedStage ctx db pid = (ctx, db, 0, 0) := by
  rcases hge : ctx.embedder with _ | gen
  · simp [embedStage, hge]
  · obtain ⟨l, hl, hc⟩ := h gen hge
    simp [embedStage, hge, hl, hc]

/-- Replaying `reverse_geocode` with the same coordinates against the
resulting cache is a pure cache hit. -/
theorem reverse_geocode_replay (svc : ℚ → ℚ → Option NominatimAddress)
    (g : Geocoder) (lat lon : ℚ) :
    reverse_geocode svc ((reverse_geocode svc g lat lon).2.1) lat lon =
      ((reverse_geocode svc g lat lon).1,
       (reverse_geocode svc g lat lon).2.1, []) := by
  simp only [reverse_geocode]
  rcases hl : g.cache.lookup (round_coords lat lon) with _ | r
  · rcases hs : svc lat lon with _ | addr <;>
      simp [List.lookup, beq_self_eq_true]
  · simp [hl]

theorem get_or_create_place_places_append (db : Database) (a b : String)
    (t : PlaceType) (par : Option Nat) :
    ∃ tl, (db.get_or_create_place a b t par).2.places = db.places ++ tl := by
  rcases hfind : db.places.find? (fun p => p.name_sv == a && p.parent_id == par)
    with _ | row
  · exact ⟨[{ id := db.next_uuid, name_sv := a, name_en := b
              place_type := t, parent_id := par }],
      by simp [Database.get_or_create_place, hfind]⟩
  · exact ⟨[], by simp [Database.get_or_create_place, hfind]⟩

/-- Replaying `get_or_create_place` against any database whose place table
extends the result of the first call (same prefix) finds the same row and
writes nothing. -/
theorem get_or_create_place_replay (db db2 : Database) (a b : String)
    (t : PlaceType) (par : Option Nat) (suffix : List PlaceRow)
    (h : db2.places = (db.get_or_create_place a b t par).2.places ++ suffix) :
    (db2.get_or_create_place a b t par).1 = (db.get_or_create_place a b t par).1 ∧
    (db2.get_or_create_place a b t par).2 = db2 := by
  rcases hfind : db.places.find? (fun p => p.name_sv == a && p.parent_id == par)
    with _ | row
  · have hpl : db2.places = db.places ++
        ([{ id := db.next_uuid, name_sv := a, name_en := b
            place_type := t, parent_id := par }] ++ suffix) := by
      rw [h]
      simp [Database.get_or_create_place, hfind]
    have hfind2 : db2.places.find? (fun p => p.name_sv == a && p.parent_id == par) =
        some { id := db.next_uuid, name_sv := a, name_en := b
               place_type := t, parent_id := par } := by
      rw [hpl, List.find?_append, hfind]
      simp
    simp [Database.get_or_create_place, hfind, hfind2]
  · have hpl : db2.places = db.places ++ suffix := by
      rw [h]
      simp [Database.get_or_create_place, hfind]
    have hfind2 : db2.places.find? (fun p => p.name_sv == a && p.parent_id == par) =
        some row := by
      rw [hpl, List.find?_append, hfind]
      rfl
    simp [Database.get_or_create_place, hfind, hfind2]

/-- Proof-only view of one non-street level of `create_place_hierarchy`. -/
def levelStep (lvl : Option (String × String)) (t : PlaceType)
    (acc : Option Nat × Option Nat × Database) : Option Nat × Option Nat × Database :=
  match lvl with
  | some (sv, en) =>
    let r := acc.2.2.get_or_create_place sv en t acc.1
    (some r.1, some r.1, r.2)
  | none => acc

/-- Proof-only view of the street level (does not update the parent). -/
def streetStep (lvl : Option (String × String))
    (acc : Option Nat × Option Nat × Database) : Option Nat × Option Nat × Database :=
  match lvl with
  | some (sv, en) =>
    let r := acc.2.2.get_or_create_place sv en .street acc.1
    (acc.1, some r.1, r.2)
  | none => acc

/-- Proof-only view of the non-street levels as a fold. -/
def levelChain (levels : List (Option (String × String) × PlaceType))
    (acc : Option Nat × Option Nat × Database) : Option Nat × Option Nat × Database :=
  levels.foldl (fun a p => levelStep p.1 p.2 a) acc

/-- `create_place_hierarchy` is the chain country→state→city followed by the
street step. -/
theorem create_place_hierarchy_as_chain (db : Database)
    (c s ci st : Option (String × String)) :
    db.create_place_hierarchy c s ci st =
      ((streetStep st (levelChain [(c, .country), (s, .state), (ci, .city)]
          (none, none, db))).2.1,
       (streetStep st (levelChain [(c, .country), (s, .state), (ci, .city)]
          (none, none, db))).2.2) := by
  rcases c with _ | ⟨c1, c2⟩ <;> rcases s with _ | ⟨s1, s2⟩ <;>
    rcases ci with _ | ⟨i1, i2⟩ <;> rcases st with _ | ⟨t1, t2⟩ <;> rfl

theorem levelStep_places_append (lvl : Option (String × String)) (t : PlaceType)
    (acc : Option Nat × Option Nat × Database) :
    ∃ tl, (levelStep lvl t acc).2.2.places = acc.2.2.places ++ tl := by
  rcases lvl with _ | ⟨sv, en⟩
  · exact ⟨[], by simp [levelStep]⟩
  · obtain ⟨tl, htl⟩ := get_or_create_place_places_append acc.2.2 sv en t acc.1
    exact ⟨tl, by simpa [levelStep] using htl⟩

theorem levelChain_places_append (levels : List (Option (String × String) × PlaceType))
    (acc : Option Nat × Option Nat × Database) :
    ∃ tl, (levelChain levels acc).2.2.places = acc.2.2.places ++ tl := by
  induction levels generalizing acc with
  | nil => exact ⟨[], by simp [levelChain]⟩
  | cons p rest ih =>
    obtain ⟨t1, ht1⟩ := levelStep_places_append p.1 p.2 acc
    obtain ⟨t2, ht2⟩ := ih (levelStep p.1 p.2 acc)
    refine ⟨t1 ++ t2, ?_⟩
    show (levelChain rest (levelStep p.1 p.2 acc)).2.2.places = _
    rw [ht2, ht1, List.append_assoc]

theorem streetStep_places_append (lvl : Option (String × String))
    (acc : Option Nat × Option Nat × Database) :
    ∃ tl, (streetStep lvl acc).2.2.places = acc.2.2.places ++ tl := by
  rcases lvl with _ | ⟨sv, en⟩
  · exact ⟨[], by simp [streetStep]⟩
  · obtain ⟨tl, htl⟩ := get_or_create_place_places_append acc.2.2 sv en .street acc.1
    exact ⟨tl, by simpa [streetStep] using htl⟩

theorem levelChain_replay (levels : List (Option (String × String) × PlaceType))
    (p r : Option Nat) (db db2 : Database) (suffix : List PlaceRow)
    (h : db2.places = (levelChain levels (p, r, db)).2.2.places ++ suffix) :
    (levelChain levels (p, r, db2)).1 = (levelChain levels (p, r, db)).1 ∧
    (levelChain levels (p, r, db2)).2.1 = (levelChain levels (p, r, db)).2.1 ∧
    (levelChain levels (p, r, db2)).2.2 = db2 := by
  induction levels generalizing p r db suffix with
  | nil => exact ⟨rfl, rfl, rfl⟩
  | cons lp rest ih =>
    rcases lp with ⟨lvl, t⟩
    rcases lvl with _ | ⟨sv, en⟩
    · exact ih p r db suffix h
    · have hchain : (levelChain ((some (sv, en), t) :: rest) (p, r, db)) =
          levelChain rest (some (db.get_or_create_place sv en t p).1,
            some (db.get_or_create_place sv en t p).1,
            (db.get_or_create_place sv en t p).2) := rfl
      obtain ⟨tl, htl⟩ := levelChain_places_append rest
        (some (db.get_or_create_place sv en t p).1,
         some (db.get_or_create_place sv en t p).1,
         (db.get_or_create_place sv en t p).2)
      have hpre : db2.places = (db.get_or_create_place sv en t p).2.places ++
          (tl ++ suffix) := by
        rw [h, hchain, htl, List.append_assoc]
      obtain ⟨hid, hdb2⟩ := get_or_create_place_replay db db2 sv en t p (tl ++ suffix) hpre
      have hchain2 : (levelChain ((some (sv, en), t) :: rest) (p, r, db2)) =
          levelChain rest (some (db2.get_or_create_place sv en t p).1,
            some (db2.get_or_create_place sv en t p).1,
            (db2.get_or_create_place sv en t p).2) := rfl
      rw [hchain2, hid, hdb2, hchain]
      exact ih (some (db.get_or_create_place sv en t p).1)
        (some (db.get_or_create_place sv en t p).1)
        (db.get_or_create_place sv en t p).2 suffix (by rw [h, hchain])

theorem streetStep_replay (lvl : Option (String × String)) (p r : Option Nat)
    (db db2 : Database)
    (h : db2.places = (streetStep lvl (p, r, db)).2.2.places) :
    (streetStep lvl (p, r, db2)).2.1 = (streetStep lvl (p, r, db)).2.1 ∧
    (streetStep lvl (p, r, db2)).2.2 = db2 := by
  rcases lvl with _ | ⟨sv, en⟩
  · exact ⟨rfl, rfl⟩
  · have hpre : db2.places = (db.get_or_create_place sv en .street p).2.places ++ [] := by
      rw [h]
      simp [streetStep]
    obtain ⟨hid, hdb2⟩ := get_or_create_place_replay db db2 sv en .street p [] hpre
    constructor
    · show some (db2.get_or_create_place sv en .street p).1 =
        some (db.get_or_create_place sv en .street p).1
      rw [hid]
    · show (db2.get_or_create_place sv en .street p).2 = db2
      exact hdb2

/-- Replaying `create_place_hierarchy` with the same arguments against the
database it produced returns the same id and changes nothing. -/
theorem create_place_hierarchy_replay (db db2 : Database)
    (c s ci st : Option (String × String))
    (h : db2.places = (db.create_place_hierarchy c s ci st).2.places) :
    db2.create_place_hierarchy c s ci st =
      ((db.create_place_hierarchy c s ci st).1, db2) := by
  rw [create_place_hierarchy_as_chain] at h ⊢
  rw [create_place_hierarchy_as_chain]
  obtain ⟨t4, ht4⟩ := streetStep_places_append st
    (levelChain [(c, .country), (s, .state), (ci, .city)] (none, none, db))
  have hch : db2.places =
      (levelChain [(c, .country), (s, .state), (ci, .city)] (none, none, db)).2.2.places
        ++ t4 := by
    rw [h]
    exact ht4
  obtain ⟨h1, h2, h3⟩ :=
    levelChain_replay [(c, .country), (s, .state), (ci, .city)] none none db db2 t4 hch
  have hacc : (levelChain [(c, .country), (s, .state), (ci, .city)] (none, none, db2)) =
      ((levelChain [(c, .country), (s, .state), (ci, .city)] (none, none, db)).1,
       (levelChain [(c, .country), (s, .state), (ci, .city)] (none, none, db)).2.1,
       db2) := by
    rcases hc2 : (levelChain [(c, .country), (s, .state), (ci, .city)] (none, none, db2))
      with ⟨a1, a2, a3⟩
    rcases hc1 : (levelChain [(c, .country), (s, .state), (ci, .city)] (none, none, db))
      with ⟨b1, b2, b3⟩
    rw [hc2] at h1 h2 h3
    rw [hc1] at h1 h2
    simp only [Prod.mk.injEq]
    exact ⟨h1, h2, h3⟩
  rw [hacc]
  rcases hc1 : (levelChain [(c, .country), (s, .state), (ci, .city)] (none, none, db))
    with ⟨b1, b2, b3⟩
  rw [hc1] at h
  obtain ⟨g1, g2⟩ := streetStep_replay st b1 b2 b3 db2 (by rw [h])
  rw [Prod.mk.injEq]
  exact ⟨g1, g2⟩

/-- A hierarchy call with at least one supplied level returns an id. -/
theorem create_place_hierarchy_isSome (db : Database)
    (c s ci st : Option (String × String))
    (h : c.isSome ∨ s.isSome ∨ ci.isSome ∨ st.isSome) :
    (db.create_place_hierarchy c s ci st).1.isSome := by
  rcases c with _ | ⟨c1, c2⟩ <;> rcases s with _ | ⟨s1, s2⟩ <;>
    rcases ci with _ | ⟨i1, i2⟩ <;> rcases st with _ | ⟨t1, t2⟩ <;>
      simp_all [Database.create_place_hierarchy.eq_def]

theorem truthy_dupIfTruthy (o : Option String) (h : truthyStr o = true) :
    (dupIfTruthy o).isSome := by
  rcases o with _ | str
  · cases h
  · have hs : str ≠ "" := by simpa [truthyStr] using h
    simp [dupIfTruthy, hs]

theorem has_hierarchy_dup (p : PlaceHint) (h : p.has_hierarchy = true) :
    (dupIfTruthy p.country).isSome ∨ (dupIfTruthy p.state).isSome ∨
      (dupIfTruthy p.city).isSome ∨ (dupIfTruthy p.street).isSome := by
  rw [PlaceHint.has_hierarchy] at h
  simp only [Bool.or_eq_true] at h
  rcases h with ((hc | hc) | hc) | hc
  · exact Or.inl (truthy_dupIfTruthy _ hc)
  · exact Or.inr (Or.inl (truthy_dupIfTruthy _ hc))
  · exact Or.inr (Or.inr (Or.inl (truthy_dupIfTruthy _ hc)))
  · exact Or.inr (Or.inr (Or.inr (truthy_dupIfTruthy _ hc)))

/-- C4 counterexample: a batch run over a file and its byte-identical
duplicate under another name.  Because `existing_photo_ids` is never updated
after the catalog upsert, the duplicate does not observe the catalog row as
existing: face detection runs again on both files (two detector
invocations) and the faces table ends with two rows for one photo. -/
theorem snapshot_not_updated_counterexample :
    (batchRun none (some detOne) false svcNone [fPlain, fDup] {} {} 0).1.db.faces.length
      = 2 ∧
    ((batchRun none (some detOne) false svcNone [fPlain, fDup] {} {} 0).2.map
      (fun r => r.face_detect_calls)) = [1, 1] := by
  constructor <;> decide

/-- Processing a byte-identical duplicate against snapshots that already
record its blobs and embedding and whose place either has a recorded
assignment or re-resolves without touching the catalog: no upload, no
embedding write, no place-table change, and the object store is untouched.
The faces table and the photo row itself are NOT protected. -/
theorem process_photo_duplicate (st : PipelineState) (f2 : FileSig) (now : Int)
    (l1 l2 l3 : List String)
    (h1 : st.ctx.existing_originals = some l1) (hm1 : f2.photo_id ∈ l1)
    (h2 : st.ctx.existing_thumbnails = some l2) (hm2 : f2.photo_id ∈ l2)
    (h3 : st.ctx.existing_defaults = some l3) (hm3 : f2.photo_id ∈ l3)
    (hemb : ∀ gen, st.ctx.embedder = some gen →
      ∃ l, st.ctx.existing_embeddings = some l ∧ f2.photo_id ∈ l)
    (hplace : (∃ m, st.ctx.existing_photo_places = some m ∧
        (m.lookup f2.photo_id).isSome) ∨
      (get_place_id_for_photo st.db f2.exif f2.folder_meta.place
        st.ctx.geocoder_on st.ctx.svc st.geo).2.2.1 = st.db) :
    (process_photo st f2 now).1.storage = st.storage ∧
    (process_photo st f2 now).1.db.image_embeddings = st.db.image_embeddings ∧
    (process_photo st f2 now).1.db.places = st.db.places ∧
    (process_photo st f2 now).2.uploads = 0 ∧
    (process_photo st f2 now).2.embed_calls = 0 := by
  rw [process_photo]
  by_cases he : earlyExit st.ctx f2.photo_id = true
  · simp [he]
  · have hflags : blobFlags st.ctx st.storage f2.photo_id = (true, true, true) := by
      simp [blobFlags, h1, h2, h3, hm1, hm2, hm3]
    simp only [he, if_false, Bool.false_eq_true, hflags, Bool.and_self, Bool.not_true,
      uploadStage_all_true]
    set hasPl := (match st.ctx.existing_photo_places with
                  | some m => (List.lookup f2.photo_id m).isSome
                  | none => false) with hhasPl
    set sig := (computeSignals f2 false hasPl).1 with hsigdef
    set PL := placeStage st.ctx st.db st.geo f2.photo_id sig f2.folder_meta.place with hPLdef
    have hpl_db : PL.2.2.1 = st.db := by
      rcases hpp : st.ctx.existing_photo_places with _ | m
      · have hsig2 : sig = f2.exif := by
          rw [hsigdef, hhasPl, hpp]
          simp [computeSignals]
        rcases hplace with ⟨m2, hm2, _⟩ | hres
        · rw [hpp] at hm2; cases hm2
        · rw [hPLdef, hsig2]
          simp only [placeStage, hpp]
          exact hres
      · rcases hsome : m.lookup f2.photo_id with _ | pid
        · have hsig2 : sig = f2.exif := by
            rw [hsigdef, hhasPl, hpp]
            simp [computeSignals, hsome]
          rcases hplace with ⟨m2, hm2, hlk2⟩ | hres
          · rw [hpp] at hm2
            injection hm2 with hm2e
            subst hm2e
            rw [hsome] at hlk2
            cases hlk2
          · rw [hPLdef, hsig2]
            simp only [placeStage, hpp, hsome]
            exact hres
        · rw [hPLdef]
          simp [placeStage, hpp, hsome]
    have hE : ∀ d : Database, embedStage PL.2.1 d f2.photo_id = (PL.2.1, d, 0, 0) := by
      intro d
      apply embedStage_skip
      intro gen hgen
      rw [hPLdef, placeStage_ctx_embedder] at hgen
      obtain ⟨l, hl, hml⟩ := hemb gen hgen
      refine ⟨l, ?_, hml⟩
      rw [hPLdef, placeStage_ctx_embeddings]
      exact hl
    simp only [hE]
    refine ⟨trivial, ?_, ?_, ?_, ?_⟩
    · simp only [faceStage_image_embeddings]
      split
      · simp only [create_exif_metadata_image_embeddings, create_photo_image_embeddings,
          hpl_db]
      · simp only [create_photo_image_embeddings, hpl_db]
    · simp only [faceStage_places]
      split
      · simp only [create_exif_metadata_places, create_photo_places, hpl_db]
      · simp only [create_photo_places, hpl_db]
    · trivial
    · trivial


theorem placeStage_ctx_originals (ctx : Ctx) (db : Database) (geo : Geocoder)
    (pid : String) (exif : ExifData) (hint : Option PlaceHint) :
    (placeStage ctx db geo pid exif hint).2.1.existing_originals = ctx.existing_originals := by
  simp only [placeStage]
  repeat' split
  all_goals rfl

theorem placeStage_ctx_thumbnails (ctx : Ctx) (db : Database) (geo : Geocoder)
    (pid : String) (exif : ExifData) (hint : Option PlaceHint) :
    (placeStage ctx db geo pid exif hint).2.1.existing_thumbnails = ctx.existing_thumbnails := by
  simp only [placeStage]
  repeat' split
  all_goals rfl

theorem placeStage_ctx_defaults (ctx : Ctx) (db : Database) (geo : Geocoder)
    (pid : String) (exif : ExifData) (hint : Option PlaceHint) :
    (placeStage ctx db geo pid exif hint).2.1.existing_defaults = ctx.existing_defaults := by
  simp only [placeStage]
  repeat' split
  all_goals rfl

theorem placeStage_ctx_geocoder_on (ctx : Ctx) (db : Database) (geo : Geocoder)
    (pid : String) (exif : ExifData) (hint : Option PlaceHint) :
    (placeStage ctx db geo pid exif hint).2.1.geocoder_on = ctx.geocoder_on := by
  simp only [placeStage]
  repeat' split
  all_goals rfl

theorem placeStage_ctx_svc (ctx : Ctx) (db : Database) (geo : Geocoder)
    (pid : String) (exif : ExifData) (hint : Option PlaceHint) :
    (placeStage ctx db geo pid exif hint).2.1.svc = ctx.svc := by
  simp only [placeStage]
  repeat' split
  all_goals rfl

theorem embedStage_ctx_originals (ctx : Ctx) (db : Database) (pid : String) :
    (embedStage ctx db pid).1.existing_originals = ctx.existing_originals := by
  simp only [embedStage]
  repeat' split
  all_goals rfl

theorem embedStage_ctx_thumbnails (ctx : Ctx) (db : Database) (pid : String) :
    (embedStage ctx db pid).1.existing_thumbnails = ctx.existing_thumbnails := by
  simp only [embedStage]
  repeat' split
  all_goals rfl

theorem embedStage_ctx_defaults (ctx : Ctx) (db : Database) (pid : String) :
    (embedStage ctx db pid).1.existing_defaults = ctx.existing_defaults := by
  simp only [embedStage]
  repeat' split
  all_goals rfl

theorem embedStage_ctx_photo_places (ctx : Ctx) (db : Database) (pid : String) :
    (embedStage ctx db pid).1.existing_photo_places = ctx.existing_photo_places := by
  simp only [embedStage]
  repeat' split
  all_goals rfl

theorem embedStage_ctx_geocoder_on (ctx : Ctx) (db : Database) (pid : String) :
    (embedStage ctx db pid).1.geocoder_on = ctx.geocoder_on := by
  simp only [embedStage]
  repeat' split
  all_goals rfl

theorem embedStage_ctx_svc (ctx : Ctx) (db : Database) (pid : String) :
    (embedStage ctx db pid).1.svc = ctx.svc := by
  simp only [embedStage]
  repeat' split
  all_goals rfl

theorem embedStage_ctx_embedder (ctx : Ctx) (db : Database) (pid : String) :
    (embedStage ctx db pid).1.embedder = ctx.embedder := by
  simp only [embedStage]
  repeat' split
  all_goals rfl

/-- First processing of a new file in a batch run from the empty state:
the blob snapshots end up containing the photo, the static context fields
are unchanged, and the embedding snapshot records the photo exactly when an
embedder is supplied. -/
theorem process_photo_fresh (emb : Option (String → List ℚ))
    (fdet : Option (String → List FaceDet)) (g : Bool)
    (svc : ℚ → ℚ → Option NominatimAddress) (f : FileSig) (now : Int) :
    (batchRun emb fdet g svc [f] {} {} now).1.ctx.existing_originals =
      some [f.photo_id] ∧
    (batchRun emb fdet g svc [f] {} {} now).1.ctx.existing_thumbnails =
      some [f.photo_id] ∧
    (batchRun emb fdet g svc [f] {} {} now).1.ctx.existing_defaults =
      some [f.photo_id] ∧
    (batchRun emb fdet g svc [f] {} {} now).1.ctx.embedder = emb ∧
    (batchRun emb fdet g svc [f] {} {} now).1.ctx.geocoder_on = g ∧
    (batchRun emb fdet g svc [f] {} {} now).1.ctx.svc = svc ∧
    (emb.isSome →
      (batchRun emb fdet g svc [f] {} {} now).1.ctx.existing_embeddings =
        some [f.photo_id]) := by
  have hhp : (match (if g then some (Database.get_all_photo_places {}) else none) with
      | some m => (List.lookup f.photo_id m).isSome
      | none => false) = false := by
    cases g <;> simp [Database.get_all_photo_places]
  simp only [batchRun, List.foldl_cons, List.foldl_nil]
  rw [process_photo]
  simp [BlobStore.list_all_blobs, Database.get_all_photo_ids,
    Database.get_all_embedding_photo_ids, List.map_nil, earlyExit,
    List.contains_nil, if_false, Bool.false_eq_true, blobFlags,
    Option.getD_some, computeSignals, Bool.and_self, Bool.not_false,
    if_true, hhp, uploadStage, Option.map_some, List.nil_append,
    Option.isSome_some, Bool.and_true, embedStage_ctx_originals,
    embedStage_ctx_thumbnails, embedStage_ctx_defaults,
    embedStage_ctx_embedder, embedStage_ctx_geocoder_on, embedStage_ctx_svc,
    placeStage_ctx_originals, placeStage_ctx_thumbnails,
    placeStage_ctx_defaults, placeStage_ctx_embedder,
    placeStage_ctx_embeddings, placeStage_ctx_geocoder_on,
    placeStage_ctx_svc]
  intro h
  obtain ⟨gen, rfl⟩ := Option.isSome_iff_exists.mp h
  simp [embedStage, placeStage_ctx_embedder, placeStage_ctx_embeddings]


/-- Proof-only view of the GPS branch of `get_place_id_for_photo`. -/
def gpsBranchView (db : Database) (exif : ExifData) (g : Bool)
    (svc : ℚ → ℚ → Option NominatimAddress) (geo : Geocoder) :
    Option Nat × String × Database × Geocoder × List (ℚ × ℚ) :=
  match g, exif.gps_lat, exif.gps_lon with
  | true, some lat, some lon =>
    let r := reverse_geocode svc geo lat lon
    match r.1 with
    | some geocoded =>
      if geocoded.country.isSome then
        let h := db.create_place_hierarchy (locPair geocoded.country)
          (locPair geocoded.state) (locPair geocoded.city) (locPair geocoded.street)
        (h.1, "GPS", h.2, r.2.1, r.2.2)
      else (none, "none", db, r.2.1, r.2.2)
    | none => (none, "none", db, r.2.1, r.2.2)
  | _, _, _ => (none, "none", db, geo, [])

theorem get_place_id_as_view (db : Database) (exif : ExifData)
    (hint : Option PlaceHint) (g : Bool) (svc : ℚ → ℚ → Option NominatimAddress)
    (geo : Geocoder) :
    get_place_id_for_photo db exif hint g svc geo =
      match hint with
      | some h =>
        if h.has_hierarchy then
          ((db.create_place_hierarchy (dupIfTruthy h.country) (dupIfTruthy h.state)
             (dupIfTruthy h.city) (dupIfTruthy h.street)).1, "folder.yaml",
           (db.create_place_hierarchy (dupIfTruthy h.country) (dupIfTruthy h.state)
             (dupIfTruthy h.city) (dupIfTruthy h.street)).2, geo, [])
        else gpsBranchView db exif g svc geo
      | none => gpsBranchView db exif g svc geo := rfl

theorem gpsBranchView_replay (db : Database) (exif : ExifData) (g : Bool)
    (svc : ℚ → ℚ → Option NominatimAddress) (geo : Geocoder)
    (db2 : Database) (geo2 : Geocoder)
    (hdb : db2.places = (gpsBranchView db exif g svc geo).2.2.1.places)
    (hgeo : geo2 = (gpsBranchView db exif g svc geo).2.2.2.1) :
    (gpsBranchView db2 exif g svc geo2).1 = (gpsBranchView db exif g svc geo).1 ∧
    (gpsBranchView db2 exif g svc geo2).2.2.1 = db2 := by
  cases g
  case false => constructor <;> simp [gpsBranchView]
  case true =>
    rcases hlat : exif.gps_lat with _ | lat
    · constructor <;> simp [gpsBranchView, hlat]
    rcases hlon : exif.gps_lon with _ | lon
    · constructor <;> simp [gpsBranchView, hlat, hlon]
    have hrep := reverse_geocode_replay svc geo lat lon
    simp only [gpsBranchView, hlat, hlon] at hdb hgeo ⊢
    rcases hr1 : (reverse_geocode svc geo lat lon).1 with _ | geocoded
    · simp only [hr1] at hdb hgeo ⊢
      rw [hgeo, hrep]
      simp [hr1]
    · by_cases hc : geocoded.country.isSome
      · simp only [hr1, hc, if_true] at hdb hgeo ⊢
        have hrepl := create_place_hierarchy_replay db db2 (locPair geocoded.country)
          (locPair geocoded.state) (locPair geocoded.city) (locPair geocoded.street) hdb
        rw [hgeo, hrep]
        simp [hr1, hc, hrepl]
      · simp only [hr1, hc, if_false, Bool.false_eq_true] at hdb hgeo ⊢
        rw [hgeo, hrep]
        simp [hr1, hc]

/-- Replaying place resolution for the same photo signals against any
database having the same place table and the geocoder cache the first call
produced: the same id comes back and the database is untouched. -/
theorem get_place_id_replay (db : Database) (exif : ExifData)
    (hint : Option PlaceHint) (g : Bool) (svc : ℚ → ℚ → Option NominatimAddress)
    (geo : Geocoder) (db2 : Database) (geo2 : Geocoder)
    (hdb : db2.places = (get_place_id_for_photo db exif hint g svc geo).2.2.1.places)
    (hgeo : geo2 = (get_place_id_for_photo db exif hint g svc geo).2.2.2.1) :
    (get_place_id_for_photo db2 exif hint g svc geo2).1 =
      (get_place_id_for_photo db exif hint g svc geo).1 ∧
    (get_place_id_for_photo db2 exif hint g svc geo2).2.2.1 = db2 := by
  rw [get_place_id_as_view] at hdb hgeo ⊢
  rw [get_place_id_as_view]
  rcases hint with _ | h
  · exact gpsBranchView_replay db exif g svc geo db2 geo2 hdb hgeo
  · by_cases hh : h.has_hierarchy
    · simp only [hh, if_true] at hdb hgeo ⊢
      have hrepl := create_place_hierarchy_replay db db2 (dupIfTruthy h.country)
        (dupIfTruthy h.state) (dupIfTruthy h.city) (dupIfTruthy h.street) hdb
      simp [hrepl]
    · simp only [hh, if_false, Bool.false_eq_true] at hdb hgeo ⊢
      exact gpsBranchView_replay db exif g svc geo db2 geo2 hdb hgeo

theorem exif_branch_places (c : Prop) [Decidable c] (db : Database) (pid : String)
    (e : ExifData) :
    ((if c then (db.create_exif_metadata pid e, 1) else (db, 0)).1).places = db.places := by
  split
  · simp [create_exif_metadata_places]
  · rfl

/-- First processing of a new file in a batch run from the empty state:
the resulting place table and geocoder cache are those of one place
resolution from empty, and a successful resolution is recorded in the
`existing_photo_places` snapshot. -/
theorem process_photo_fresh_place (emb : Option (String → List ℚ))
    (fdet : Option (String → List FaceDet)) (g : Bool)
    (svc : ℚ → ℚ → Option NominatimAddress) (f : FileSig) (now : Int) :
    (batchRun emb fdet g svc [f] {} {} now).1.db.places =
      (get_place_id_for_photo {} f.exif f.folder_meta.place g svc {}).2.2.1.places ∧
    (batchRun emb fdet g svc [f] {} {} now).1.geo =
      (get_place_id_for_photo {} f.exif f.folder_meta.place g svc {}).2.2.2.1 ∧
    (∀ pid : Nat, g = true →
      (get_place_id_for_photo {} f.exif f.folder_meta.place g svc {}).1 = some pid →
      (batchRun emb fdet g svc [f] {} {} now).1.ctx.existing_photo_places =
        some [(f.photo_id, pid)]) := by
  cases g
  case false =>
    refine ⟨?_, ?_, ?_⟩
    · simp [batchRun, process_photo, earlyExit, blobFlags, computeSignals,
        uploadStage, BlobStore.list_all_blobs, Database.get_all_photo_ids,
        Database.get_all_embedding_photo_ids, placeStage,
        faceStage_places, embedStage_places, exif_branch_places,
        create_photo_places]
    · simp [batchRun, process_photo, earlyExit, blobFlags, computeSignals,
        uploadStage, BlobStore.list_all_blobs, Database.get_all_photo_ids,
        Database.get_all_embedding_photo_ids, placeStage]
    · intro pid hg
      cases hg
  case true =>
    refine ⟨?_, ?_, ?_⟩
    · simp [batchRun, process_photo, earlyExit, blobFlags, computeSignals,
        uploadStage, BlobStore.list_all_blobs, Database.get_all_photo_ids,
        Database.get_all_embedding_photo_ids, Database.get_all_photo_places,
        placeStage, faceStage_places, embedStage_places, exif_branch_places,
        create_photo_places]
    · simp [batchRun, process_photo, earlyExit, blobFlags, computeSignals,
        uploadStage, BlobStore.list_all_blobs, Database.get_all_photo_ids,
        Database.get_all_embedding_photo_ids, Database.get_all_photo_places,
        placeStage]
    · intro pid hg hpid
      simp [batchRun, process_photo, earlyExit, blobFlags, computeSignals,
        uploadStage, BlobStore.list_all_blobs, Database.get_all_photo_ids,
        Database.get_all_embedding_photo_ids, Database.get_all_photo_places,
        placeStage, embedStage_ctx_photo_places, hpid]

/-- C4 (amended): the blob, embedding and place-assignment snapshots are
updated after creation, so a byte-identical duplicate later in the same
batch run re-uploads nothing, recreates no embedding row, and leaves the
place table unchanged; the `existing_photo_ids` snapshot is the exception
(see the counterexample: faces are re-detected and the photo row
re-upserted). -/
theorem snapshot_self_consistency (emb : Option (String → List ℚ))
    (fdet : Option (String → List FaceDet)) (g : Bool)
    (svc : ℚ → ℚ → Option NominatimAddress) (f : FileSig) (name2 : String)
    (now : Int) :
    (batchRun emb fdet g svc [f, { f with filename := name2 }] {} {} now).1.storage =
      (batchRun emb fdet g svc [f] {} {} now).1.storage ∧
    (batchRun emb fdet g svc [f, { f with filename := name2 }] {} {} now).1.db.image_embeddings =
      (batchRun emb fdet g svc [f] {} {} now).1.db.image_embeddings ∧
    (batchRun emb fdet g svc [f, { f with filename := name2 }] {} {} now).1.db.places =
      (batchRun emb fdet g svc [f] {} {} now).1.db.places ∧
    (∃ s2, (batchRun emb fdet g svc [f, { f with filename := name2 }] {} {} now).2 =
        (batchRun emb fdet g svc [f] {} {} now).2 ++ [s2] ∧
      s2.uploads = 0 ∧ s2.embed_calls = 0) := by
  obtain ⟨ho, ht, hd, hembf, hg, hsvc, hembs⟩ := process_photo_fresh emb fdet g svc f now
  obtain ⟨hpls, hgeo, _⟩ := process_photo_fresh_place emb fdet g svc f now
  have hpair : batchRun emb fdet g svc [f, { f with filename := name2 }] {} {} now =
      ((process_photo (batchRun emb fdet g svc [f] {} {} now).1
          { f with filename := name2 } now).1,
       (batchRun emb fdet g svc [f] {} {} now).2 ++
         [(process_photo (batchRun emb fdet g svc [f] {} {} now).1
            { f with filename := name2 } now).2]) := rfl
  have hembhyp : ∀ gen,
      (batchRun emb fdet g svc [f] {} {} now).1.ctx.embedder = some gen →
      ∃ l, (batchRun emb fdet g svc [f] {} {} now).1.ctx.existing_embeddings = some l ∧
        ({ f with filename := name2 } : FileSig).photo_id ∈ l := by
    intro gen hgen
    rw [hembf] at hgen
    refine ⟨[f.photo_id], hembs (by rw [hgen]; rfl), ?_⟩
    simp
  have hplace : (∃ m,
      (batchRun emb fdet g svc [f] {} {} now).1.ctx.existing_photo_places = some m ∧
        (m.lookup ({ f with filename := name2 } : FileSig).photo_id).isSome) ∨
      (get_place_id_for_photo (batchRun emb fdet g svc [f] {} {} now).1.db
        ({ f with filename := name2 } : FileSig).exif
        ({ f with filename := name2 } : FileSig).folder_meta.place
        (batchRun emb fdet g svc [f] {} {} now).1.ctx.geocoder_on
        (batchRun emb fdet g svc [f] {} {} now).1.ctx.svc
        (batchRun emb fdet g svc [f] {} {} now).1.geo).2.2.1 =
      (batchRun emb fdet g svc [f] {} {} now).1.db := by
    right
    rw [hg, hsvc]
    exact (get_place_id_replay {} f.exif f.folder_meta.place g svc {}
      (batchRun emb fdet g svc [f] {} {} now).1.db
      (batchRun emb fdet g svc [f] {} {} now).1.geo hpls hgeo).2
  obtain ⟨c1, c2, c3, c4, c5⟩ := process_photo_duplicate
    (batchRun emb fdet g svc [f] {} {} now).1 { f with filename := name2 } now
    [f.photo_id] [f.photo_id] [f.photo_id]
    ho (by simp) ht (by simp) hd (by simp) hembhyp hplace
  rw [hpair]
  exact ⟨c1, c2, c3,
    (process_photo (batchRun emb fdet g svc [f] {} {} now).1
      { f with filename := name2 } now).2, rfl, c4, c5⟩

theorem create_photo_edit_history (db : Database) (pid fn : String) (dne dnl : Option Int)
    (pl : Option Nat) (w h : Option Nat) (now : Int) :
    (db.create_photo pid fn dne dnl pl w h now).edit_history = db.edit_history := by
  rw [Database.create_photo]; split <;> rfl

theorem create_photo_exif_metadata (db : Database) (pid fn : String) (dne dnl : Option Int)
    (pl : Option Nat) (w h : Option Nat) (now : Int) :
    (db.create_photo pid fn dne dnl pl w h now).exif_metadata = db.exif_metadata := by
  rw [Database.create_photo]; split <;> rfl

theorem create_exif_metadata_edit_history (db : Database) (pid : String) (exif : ExifData) :
    (db.create_exif_metadata pid exif).edit_history = db.edit_history := by
  rw [Database.create_exif_metadata]; split <;> rfl

theorem create_image_embedding_edit_history (db : Database) (pid : String) (v : List ℚ) :
    (db.create_image_embedding pid v).edit_history = db.edit_history := by
  rw [Database.create_image_embedding]; split <;> rfl

theorem create_image_embedding_exif_metadata (db : Database) (pid : String) (v : List ℚ) :
    (db.create_image_embedding pid v).exif_metadata = db.exif_metadata := by
  rw [Database.create_image_embedding]; split <;> rfl

theorem faces_fold_photos (faces : List FaceDet) (db : Database) (pid : String) :
    (faces.foldl
      (fun d face =>
        (d.create_face pid face.bbox_x face.bbox_y face.bbox_width
          face.bbox_height face.embedding).2) db).photos = db.photos := by
  induction faces generalizing db with
  | nil => rfl
  | cons face rest ih => exact ih _

theorem faces_fold_edit_history (faces : List FaceDet) (db : Database) (pid : String) :
    (faces.foldl
      (fun d face =>
        (d.create_face pid face.bbox_x face.bbox_y face.bbox_width
          face.bbox_height face.embedding).2) db).edit_history = db.edit_history := by
  induction faces generalizing db with
  | nil => rfl
  | cons face rest ih => exact ih _

theorem faces_fold_exif_metadata (faces : List FaceDet) (db : Database) (pid : String) :
    (faces.foldl
      (fun d face =>
        (d.create_face pid face.bbox_x face.bbox_y face.bbox_width
          face.bbox_height face.embedding).2) db).exif_metadata = db.exif_metadata := by
  induction faces generalizing db with
  | nil => rfl
  | cons face rest ih => exact ih _

theorem faceStage_photos (ctx : Ctx) (db : Database) (pid : String) :
    (faceStage ctx db pid).1.photos = db.photos := by
  rcases hdet : ctx.face_detector with _ | det
  · simp [faceStage, hdet]
  · simp only [faceStage, hdet]
    split
    · rfl
    · exact faces_fold_photos _ _ _

theorem faceStage_edit_history (ctx : Ctx) (db : Database) (pid : String) :
    (faceStage ctx db pid).1.edit_history = db.edit_history := by
  rcases hdet : ctx.face_detector with _ | det
  · simp [faceStage, hdet]
  · simp only [faceStage, hdet]
    split
    · rfl
    · exact faces_fold_edit_history _ _ _

theorem faceStage_exif_metadata (ctx : Ctx) (db : Database) (pid : String) :
    (faceStage ctx db pid).1.exif_metadata = db.exif_metadata := by
  rcases hdet : ctx.face_detector with _ | det
  · simp [faceStage, hdet]
  · simp only [faceStage, hdet]
    split
    · rfl
    · exact faces_fold_exif_metadata _ _ _

theorem embedStage_photos (ctx : Ctx) (db : Database) (pid : String) :
    (embedStage ctx db pid).2.1.photos = db.photos := by
  rcases hge : ctx.embedder with _ | gen
  · simp [embedStage, hge]
  · simp only [embedStage, hge]
    split
    · rfl
    · exact create_image_embedding_photos _ _ _

theorem embedStage_edit_history (ctx : Ctx) (db : Database) (pid : String) :
    (embedStage ctx db pid).2.1.edit_history = db.edit_history := by
  rcases hge : ctx.embedder with _ | gen
  · simp [embedStage, hge]
  · simp only [embedStage, hge]
    split
    · rfl
    · exact create_image_embedding_edit_history _ _ _

theorem embedStage_exif_metadata (ctx : Ctx) (db : Database) (pid : String) :
    (embedStage ctx db pid).2.1.exif_metadata = db.exif_metadata := by
  rcases hge : ctx.embedder with _ | gen
  · simp [embedStage, hge]
  · simp only [embedStage, hge]
    split
    · rfl
    · exact create_image_embedding_exif_metadata _ _ _

theorem get_or_create_place_edit_history (db : Database) (a b : String)
    (t : PlaceType) (par : Option Nat) :
    (db.get_or_create_place a b t par).2.edit_history = db.edit_history := by
  rw [Database.get_or_create_place.eq_def]
  split <;> rfl

theorem get_or_create_place_exif_metadata (db : Database) (a b : String)
    (t : PlaceType) (par : Option Nat) :
    (db.get_or_create_place a b t par).2.exif_metadata = db.exif_metadata := by
  rw [Database.get_or_create_place.eq_def]
  split <;> rfl

theorem get_or_create_place_image_embeddings (db : Database) (a b : String)
    (t : PlaceType) (par : Option Nat) :
    (db.get_or_create_place a b t par).2.image_embeddings = db.image_embeddings := by
  rw [Database.get_or_create_place.eq_def]
  split <;> rfl

theorem create_place_hierarchy_edit_history (db : Database)
    (c s ci st : Option (String × String)) :
    (db.create_place_hierarchy c s ci st).2.edit_history = db.edit_history := by
  rcases c with _ | ⟨c1, c2⟩ <;> rcases s with _ | ⟨s1, s2⟩ <;>
    rcases ci with _ | ⟨i1, i2⟩ <;> rcases st with _ | ⟨t1, t2⟩ <;>
      simp [Database.create_place_hierarchy.eq_def, get_or_create_place_edit_history]

theorem create_place_hierarchy_exif_metadata (db : Database)
    (c s ci st : Option (String × String)) :
    (db.create_place_hierarchy c s ci st).2.exif_metadata = db.exif_metadata := by
  rcases c with _ | ⟨c1, c2⟩ <;> rcases s with _ | ⟨s1, s2⟩ <;>
    rcases ci with _ | ⟨i1, i2⟩ <;> rcases st with _ | ⟨t1, t2⟩ <;>
      simp [Database.create_place_hierarchy.eq_def, get_or_create_place_exif_metadata]

theorem create_place_hierarchy_image_embeddings (db : Database)
    (c s ci st : Option (String × String)) :
    (db.create_place_hierarchy c s ci st).2.image_embeddings = db.image_embeddings := by
  rcases c with _ | ⟨c1, c2⟩ <;> rcases s with _ | ⟨s1, s2⟩ <;>
    rcases ci with _ | ⟨i1, i2⟩ <;> rcases st with _ | ⟨t1, t2⟩ <;>
      simp [Database.create_place_hierarchy.eq_def, get_or_create_place_image_embeddings]

theorem gpsBranchView_photos (db : Database) (exif : ExifData) (g : Bool)
    (svc : ℚ → ℚ → Option NominatimAddress) (geo : Geocoder) :
    (gpsBranchView db exif g svc geo).2.2.1.photos = db.photos := by
  cases g
  · simp [gpsBranchView]
  · rcases hlat : exif.gps_lat with _ | lat
    · simp [gpsBranchView, hlat]
    · rcases hlon : exif.gps_lon with _ | lon
      · simp [gpsBranchView, hlat, hlon]
      · simp only [gpsBranchView, hlat, hlon]
        rcases hr : (reverse_geocode svc geo lat lon).1 with _ | gc
        · simp [hr]
        · by_cases hc : gc.country.isSome <;>
            simp [hr, hc, create_place_hierarchy_photos]

theorem gpsBranchView_edit_history (db : Database) (exif : ExifData) (g : Bool)
    (svc : ℚ → ℚ → Option NominatimAddress) (geo : Geocoder) :
    (gpsBranchView db exif g svc geo).2.2.1.edit_history = db.edit_history := by
  cases g
  · simp [gpsBranchView]
  · rcases hlat : exif.gps_lat with _ | lat
    · simp [gpsBranchView, hlat]
    · rcases hlon : exif.gps_lon with _ | lon
      · simp [gpsBranchView, hlat, hlon]
      · simp only [gpsBranchView, hlat, hlon]
        rcases hr : (reverse_geocode svc geo lat lon).1 with _ | gc
        · simp [hr]
        · by_cases hc : gc.country.isSome <;>
            simp [hr, hc, create_place_hierarchy_edit_history]

theorem gpsBranchView_exif_metadata (db : Database) (exif : ExifData) (g : Bool)
    (svc : ℚ → ℚ → Option NominatimAddress) (geo : Geocoder) :
    (gpsBranchView db exif g svc geo).2.2.1.exif_metadata = db.exif_metadata := by
  cases g
  · simp [gpsBranchView]
  · rcases hlat : exif.gps_lat with _ | lat
    · simp [gpsBranchView, hlat]
    · rcases hlon : exif.gps_lon with _ | lon
      · simp [gpsBranchView, hlat, hlon]
      · simp only [gpsBranchView, hlat, hlon]
        rcases hr : (reverse_geocode svc geo lat lon).1 with _ | gc
        · simp [hr]
        · by_cases hc : gc.country.isSome <;>
            simp [hr, hc, create_place_hierarchy_exif_metadata]

theorem gpsBranchView_image_embeddings (db : Database) (exif : ExifData) (g : Bool)
    (svc : ℚ → ℚ → Option NominatimAddress) (geo : Geocoder) :
    (gpsBranchView db exif g svc geo).2.2.1.image_embeddings = db.image_embeddings := by
  cases g
  · simp [gpsBranchView]
  · rcases hlat : exif.gps_lat with _ | lat
    · simp [gpsBranchView, hlat]
    · rcases hlon : exif.gps_lon with _ | lon
      · simp [gpsBranchView, hlat, hlon]
      · simp only [gpsBranchView, hlat, hlon]
        rcases hr : (reverse_geocode svc geo lat lon).1 with _ | gc
        · simp [hr]
        · by_cases hc : gc.country.isSome <;>
            simp [hr, hc, create_place_hierarchy_image_embeddings]

theorem get_place_id_photos (db : Database) (exif : ExifData)
    (hint : Option PlaceHint) (g : Bool) (svc : ℚ → ℚ → Option NominatimAddress)
    (geo : Geocoder) :
    (get_place_id_for_photo db exif hint g svc geo).2.2.1.photos = db.photos := by
  rw [get_place_id_as_view]
  rcases hint with _ | h
  · exact gpsBranchView_photos db exif g svc geo
  · by_cases hh : h.has_hierarchy <;>
      simp [hh, create_place_hierarchy_photos, gpsBranchView_photos db exif g svc geo]

theorem get_place_id_edit_history (db : Database) (exif : ExifData)
    (hint : Option PlaceHint) (g : Bool) (svc : ℚ → ℚ → Option NominatimAddress)
    (geo : Geocoder) :
    (get_place_id_for_photo db exif hint g svc geo).2.2.1.edit_history = db.edit_history := by
  rw [get_place_id_as_view]
  rcases hint with _ | h
  · exact gpsBranchView_edit_history db exif g svc geo
  · by_cases hh : h.has_hierarchy <;>
      simp [hh, create_place_hierarchy_edit_history, gpsBranchView_edit_history db exif g svc geo]

theorem get_place_id_exif_metadata (db : Database) (exif : ExifData)
    (hint : Option PlaceHint) (g : Bool) (svc : ℚ → ℚ → Option NominatimAddress)
    (geo : Geocoder) :
    (get_place_id_for_photo db exif hint g svc geo).2.2.1.exif_metadata = db.exif_metadata := by
  rw [get_place_id_as_view]
  rcases hint with _ | h
  · exact gpsBranchView_exif_metadata db exif g svc geo
  · by_cases hh : h.has_hierarchy <;>
      simp [hh, create_place_hierarchy_exif_metadata, gpsBranchView_exif_metadata db exif g svc geo]

theorem get_place_id_image_embeddings (db : Database) (exif : ExifData)
    (hint : Option PlaceHint) (g : Bool) (svc : ℚ → ℚ → Option NominatimAddress)
    (geo : Geocoder) :
    (get_place_id_for_photo db exif hint g svc geo).2.2.1.image_embeddings = db.image_embeddings := by
  rw [get_place_id_as_view]
  rcases hint with _ | h
  · exact gpsBranchView_image_embeddings db exif g svc geo
  · by_cases hh : h.has_hierarchy <;>
      simp [hh, create_place_hierarchy_image_embeddings, gpsBranchView_image_embeddings db exif g svc geo]

theorem placeStage_db_photos (ctx : Ctx) (db : Database) (geo : Geocoder)
    (pid : String) (exif : ExifData) (hint : Option PlaceHint) :
    (placeStage ctx db geo pid exif hint).2.2.1.photos = db.photos := by
  simp only [placeStage]
  repeat' split
  all_goals first
    | rfl
    | exact get_place_id_photos db exif hint ctx.geocoder_on ctx.svc geo

theorem placeStage_db_edit_history (ctx : Ctx) (db : Database) (geo : Geocoder)
    (pid : String) (exif : ExifData) (hint : Option PlaceHint) :
    (placeStage ctx db geo pid exif hint).2.2.1.edit_history = db.edit_history := by
  simp only [placeStage]
  repeat' split
  all_goals first
    | rfl
    | exact get_place_id_edit_history db exif hint ctx.geocoder_on ctx.svc geo

theorem placeStage_db_exif_metadata (ctx : Ctx) (db : Database) (geo : Geocoder)
    (pid : String) (exif : ExifData) (hint : Option PlaceHint) :
    (placeStage ctx db geo pid exif hint).2.2.1.exif_metadata = db.exif_metadata := by
  simp only [placeStage]
  repeat' split
  all_goals first
    | rfl
    | exact get_place_id_exif_metadata db exif hint ctx.geocoder_on ctx.svc geo

theorem placeStage_db_image_embeddings (ctx : Ctx) (db : Database) (geo : Geocoder)
    (pid : String) (exif : ExifData) (hint : Option PlaceHint) :
    (placeStage ctx db geo pid exif hint).2.2.1.image_embeddings = db.image_embeddings := by
  simp only [placeStage]
  repeat' split
  all_goals first
    | rfl
    | exact get_place_id_image_embeddings db exif hint ctx.geocoder_on ctx.svc geo

theorem exif_branch_photos (c : Prop) [Decidable c] (db : Database) (pid : String)
    (e : ExifData) :
    ((if c then (db.create_exif_metadata pid e, 1) else (db, 0)).1).photos = db.photos := by
  split
  · simp [create_exif_metadata_photos]
  · rfl

theorem exif_branch_edit_history (c : Prop) [Decidable c] (db : Database) (pid : String)
    (e : ExifData) :
    ((if c then (db.create_exif_metadata pid e, 1) else (db, 0)).1).edit_history = db.edit_history := by
  split
  · simp [create_exif_metadata_edit_history]
  · rfl

theorem exif_branch_image_embeddings (c : Prop) [Decidable c] (db : Database) (pid : String)
    (e : ExifData) :
    ((if c then (db.create_exif_metadata pid e, 1) else (db, 0)).1).image_embeddings = db.image_embeddings := by
  split
  · simp [create_exif_metadata_image_embeddings]
  · rfl

/-- Proof-only abbreviation: the `exif_metadata` row written for a photo. -/
def exifRowOf (pid : String) (e : ExifData) : ExifRow :=
  { photo_id := pid, camera_make := e.camera_make, camera_model := e.camera_model
    lens := e.lens, focal_length := e.focal_length, aperture := e.aperture
    shutter_speed := e.shutter_speed, iso := e.iso, taken_at := e.taken_at
    raw_exif := e.raw_exif }

/-- Proof-only abbreviation: the `photos` row after first ingesting `f` from
the empty state. -/
def ingestRow (f : FileSig) (g : Bool) (svc : ℚ → ℚ → Option NominatimAddress)
    (now : Int) : PhotoRow :=
  { id := f.photo_id, original_filename := f.filename
    date_not_earlier_than :=
      some (get_date_for_photo f.exif f.folder_meta.date_range f.mtime).1
    date_not_later_than :=
      some (get_date_for_photo f.exif f.folder_meta.date_range f.mtime).2.1
    place_id := (get_place_id_for_photo {} f.exif f.folder_meta.place g svc {}).1
    width := none, height := none, is_low_quality := false
    created_at := now, updated_at := now }

/-- State after a one-file batch run from the empty state: the three
containers hold exactly the photo, the photo row is the ingested row, no
edit-history entry is written, the EXIF row is present exactly when camera
make or taken-at was extracted, and the embedding row is present exactly
when an embedder was supplied. -/
theorem batch_run_one_db (emb : Option (String → List ℚ))
    (fdet : Option (String → List FaceDet)) (g : Bool)
    (svc : ℚ → ℚ → Option NominatimAddress) (f : FileSig) (now : Int) :
    (batchRun emb fdet g svc [f] {} {} now).1.storage =
      { originals := [f.photo_id], thumbnails := [f.photo_id]
        defaults := [f.photo_id] } ∧
    (batchRun emb fdet g svc [f] {} {} now).1.db.photos = [ingestRow f g svc now] ∧
    (batchRun emb fdet g svc [f] {} {} now).1.db.edit_history = [] ∧
    (batchRun emb fdet g svc [f] {} {} now).1.db.exif_metadata =
      (if truthyStr f.exif.camera_make || f.exif.taken_at.isSome then
        [exifRowOf f.photo_id f.exif] else []) ∧
    (∀ gen, emb = some gen →
      (batchRun emb fdet g svc [f] {} {} now).1.db.image_embeddings =
        [(f.photo_id, gen f.photo_id)]) ∧
    (emb = none →
      (batchRun emb fdet g svc [f] {} {} now).1.db.image_embeddings = []) := by
  cases g
  case false =>
    refine ⟨?_, ?_, ?_, ?_, ?_, ?_⟩
    · simp [batchRun, process_photo, earlyExit, blobFlags, computeSignals,
        uploadStage, BlobStore.list_all_blobs, Database.get_all_photo_ids,
        Database.get_all_embedding_photo_ids]
    · simp [batchRun, process_photo, earlyExit, blobFlags, computeSignals,
        uploadStage, BlobStore.list_all_blobs, Database.get_all_photo_ids,
        Database.get_all_embedding_photo_ids, placeStage,
        faceStage_photos, embedStage_photos, exif_branch_photos,
        Database.create_photo, Database.photo_exists, Database.has_manual_edits,
        get_place_id_photos, get_place_id_edit_history, ingestRow]
    · simp [batchRun, process_photo, earlyExit, blobFlags, computeSignals,
        uploadStage, BlobStore.list_all_blobs, Database.get_all_photo_ids,
        Database.get_all_embedding_photo_ids, placeStage,
        faceStage_edit_history, embedStage_edit_history, exif_branch_edit_history,
        create_photo_edit_history, get_place_id_edit_history]
    · cases hcond : (truthyStr f.exif.camera_make || f.exif.taken_at.isSome)
      case false =>
        have ha : truthyStr f.exif.camera_make = false := by
          simpa using (Bool.or_eq_false_iff.mp hcond).1
        have hb : f.exif.taken_at.isSome = false := by
          simpa using (Bool.or_eq_false_iff.mp hcond).2
        simp [batchRun, process_photo, earlyExit, blobFlags, computeSignals,
          uploadStage, BlobStore.list_all_blobs, Database.get_all_photo_ids,
          Database.get_all_embedding_photo_ids, placeStage, ha, hb,
          faceStage_exif_metadata, embedStage_exif_metadata,
          Database.create_exif_metadata, create_photo_exif_metadata,
          get_place_id_exif_metadata, exifRowOf]
      case true =>
        have hcond2 : truthyStr f.exif.camera_make = true ∨
            f.exif.taken_at.isSome = true := by simpa using hcond
        simp [batchRun, process_photo, earlyExit, blobFlags, computeSignals,
          uploadStage, BlobStore.list_all_blobs, Database.get_all_photo_ids,
          Database.get_all_embedding_photo_ids, placeStage, hcond2,
          faceStage_exif_metadata, embedStage_exif_metadata,
          Database.create_exif_metadata, create_photo_exif_metadata,
          get_place_id_exif_metadata, exifRowOf]
    · intro gen hgen
      subst hgen
      simp [batchRun, process_photo, earlyExit, blobFlags, computeSignals,
        uploadStage, BlobStore.list_all_blobs, Database.get_all_photo_ids,
        Database.get_all_embedding_photo_ids,
        placeStage_ctx_embedder, placeStage_ctx_embeddings,
        placeStage_db_image_embeddings, embedStage,
        faceStage_image_embeddings, Database.create_image_embedding,
        exif_branch_image_embeddings, create_photo_image_embeddings]
    · intro hgen
      subst hgen
      simp [batchRun, process_photo, earlyExit, blobFlags, computeSignals,
        uploadStage, BlobStore.list_all_blobs, Database.get_all_photo_ids,
        Database.get_all_embedding_photo_ids,
        placeStage_ctx_embedder, placeStage_ctx_embeddings,
        placeStage_db_image_embeddings, embedStage,
        faceStage_image_embeddings, exif_branch_image_embeddings,
        create_photo_image_embeddings]
  case true =>
    refine ⟨?_, ?_, ?_, ?_, ?_, ?_⟩
    · simp [batchRun, process_photo, earlyExit, blobFlags, computeSignals,
        uploadStage, BlobStore.list_all_blobs, Database.get_all_photo_ids,
        Database.get_all_embedding_photo_ids, Database.get_all_photo_places]
    · simp [batchRun, process_photo, earlyExit, blobFlags, computeSignals,
        uploadStage, BlobStore.list_all_blobs, Database.get_all_photo_ids,
        Database.get_all_embedding_photo_ids, Database.get_all_photo_places,
        placeStage, faceStage_photos, embedStage_photos, exif_branch_photos,
        Database.create_photo, Database.photo_exists, Database.has_manual_edits,
        get_place_id_photos, get_place_id_edit_history, ingestRow]
    · simp [batchRun, process_photo, earlyExit, blobFlags, computeSignals,
        uploadStage, BlobStore.list_all_blobs, Database.get_all_photo_ids,
        Database.get_all_embedding_photo_ids, Database.get_all_photo_places,
        placeStage, faceStage_edit_history, embedStage_edit_history,
        exif_branch_edit_history, create_photo_edit_history,
        get_place_id_edit_history]
    · cases hcond : (truthyStr f.exif.camera_make || f.exif.taken_at.isSome)
      case false =>
        have ha : truthyStr f.exif.camera_make = false := by
          simpa using (Bool.or_eq_false_iff.mp hcond).1
        have hb : f.exif.taken_at.isSome = false := by
          simpa using (Bool.or_eq_false_iff.mp hcond).2
        simp [batchRun, process_photo, earlyExit, blobFlags, computeSignals,
          uploadStage, BlobStore.list_all_blobs, Database.get_all_photo_ids,
          Database.get_all_embedding_photo_ids, Database.get_all_photo_places,
          placeStage, ha, hb, faceStage_exif_metadata, embedStage_exif_metadata,
          Database.create_exif_metadata, create_photo_exif_metadata,
          get_place_id_exif_metadata, exifRowOf]
      case true =>
        have hcond2 : truthyStr f.exif.camera_make = true ∨
            f.exif.taken_at.isSome = true := by simpa using hcond
        simp [batchRun, process_photo, earlyExit, blobFlags, computeSignals,
          uploadStage, BlobStore.list_all_blobs, Database.get_all_photo_ids,
          Database.get_all_embedding_photo_ids, Database.get_all_photo_places,
          placeStage, hcond2, faceStage_exif_metadata, embedStage_exif_metadata,
          Database.create_exif_metadata, create_photo_exif_metadata,
          get_place_id_exif_metadata, exifRowOf]
    · intro gen hgen
      subst hgen
      simp [batchRun, process_photo, earlyExit, blobFlags, computeSignals,
        uploadStage, BlobStore.list_all_blobs, Database.get_all_photo_ids,
        Database.get_all_embedding_photo_ids, Database.get_all_photo_places,
        placeStage_ctx_embedder, placeStage_ctx_embeddings,
        placeStage_db_image_embeddings, embedStage,
        faceStage_image_embeddings, Database.create_image_embedding,
        exif_branch_image_embeddings, create_photo_image_embeddings]
    · intro hgen
      subst hgen
      simp [batchRun, process_photo, earlyExit, blobFlags, computeSignals,
        uploadStage, BlobStore.list_all_blobs, Database.get_all_photo_ids,
        Database.get_all_embedding_photo_ids, Database.get_all_photo_places,
        placeStage_ctx_embedder, placeStage_ctx_embeddings,
        placeStage_db_image_embeddings, embedStage,
        faceStage_image_embeddings, exif_branch_image_embeddings,
        create_photo_image_embeddings]

theorem faceStage_skip (ctx : Ctx) (db : Database) (pid : String)
    (ids : List String) (hids : ctx.existing_photo_ids = some ids)
    (hmem : pid ∈ ids) : faceStage ctx db pid = (db, 0, 0) := by
  rcases hdet : ctx.face_detector with _ | det
  · simp [faceStage, hdet]
  · simp [faceStage, hdet, hids, hmem]

/-- A GPS-branch resolution that returned no place touched nothing, and
re-running it with the same cache against any database again returns no
place and touches nothing. -/
theorem gpsBranchView_none_replay (db db2 : Database) (exif : ExifData)
    (g : Bool) (svc : ℚ → ℚ → Option NominatimAddress) (geo : Geocoder)
    (h : (gpsBranchView db exif g svc geo).1 = none) :
    (gpsBranchView db2 exif g svc geo).1 = none ∧
    (gpsBranchView db2 exif g svc geo).2.2.1 = db2 := by
  cases g
  case false => constructor <;> simp [gpsBranchView]
  case true =>
    rcases hlat : exif.gps_lat with _ | lat
    · constructor <;> simp [gpsBranchView, hlat]
    rcases hlon : exif.gps_lon with _ | lon
    · constructor <;> simp [gpsBranchView, hlat, hlon]
    simp only [gpsBranchView, hlat, hlon] at h ⊢
    rcases hr : (reverse_geocode svc geo lat lon).1 with _ | gc
    · simp [hr]
    · by_cases hc : gc.country.isSome
      · exfalso
        simp only [hr, hc, if_true] at h
        obtain ⟨c, hcs⟩ := Option.isSome_iff_exists.mp hc
        have hiso := create_place_hierarchy_isSome db (locPair gc.country)
          (locPair gc.state) (locPair gc.city) (locPair gc.street)
          (Or.inl (by simp [locPair, hcs]))
        rw [h] at hiso
        simp at hiso
      · simp [hr, hc]

/-- A place resolution that returned no place touched nothing, and
re-running it with the same photo signals and cache against any database
again returns no place and touches nothing. -/
theorem get_place_id_none_replay (db db2 : Database) (exif : ExifData)
    (hint : Option PlaceHint) (g : Bool) (svc : ℚ → ℚ → Option NominatimAddress)
    (geo : Geocoder)
    (h : (get_place_id_for_photo db exif hint g svc geo).1 = none) :
    (get_place_id_for_photo db2 exif hint g svc geo).1 = none ∧
    (get_place_id_for_photo db2 exif hint g svc geo).2.2.1 = db2 := by
  rw [get_place_id_as_view] at h ⊢
  rcases hint with _ | ph
  · exact gpsBranchView_none_replay db db2 exif g svc geo h
  · by_cases hh : ph.has_hierarchy
    · exfalso
      simp only [hh, if_true] at h
      have hiso := create_place_hierarchy_isSome db (dupIfTruthy ph.country)
        (dupIfTruthy ph.state) (dupIfTruthy ph.city) (dupIfTruthy ph.street)
        (has_hierarchy_dup ph hh)
      rw [h] at hiso
      simp at hiso
    · simp only [hh, if_false, Bool.false_eq_true] at h ⊢
      exact gpsBranchView_none_replay db db2 exif g svc geo h

/-- A batch run over a single file whose photo id, embedding and place
assignment are all visible in the pre-fetched snapshots early-exits:
state untouched, empty statistics. -/
theorem batchRun_skip (emb : Option (String → List ℚ))
    (fdet : Option (String → List FaceDet)) (g : Bool)
    (svc : ℚ → ℚ → Option NominatimAddress) (f : FileSig) (S : BlobStore)
    (D : Database) (now : Int)
    (hids : D.get_all_photo_ids = [f.photo_id])
    (hembq : ∀ gen, emb = some gen → f.photo_id ∈ D.get_all_embedding_photo_ids)
    (hplq : g = true → f.photo_id ∈ D.get_all_photo_places.map Prod.fst) :
    (batchRun emb fdet g svc [f] S D now).1.storage = S ∧
    (batchRun emb fdet g svc [f] S D now).1.db = D ∧
    (batchRun emb fdet g svc [f] S D now).2 = [{}] := by
  have hEE : earlyExit
      { embedder := emb, face_detector := fdet, geocoder_on := g, svc := svc
        existing_originals := some (S.list_all_blobs "originals")
        existing_thumbnails := some (S.list_all_blobs "thumbnails")
        existing_defaults := some (S.list_all_blobs "default")
        existing_photo_ids := some D.get_all_photo_ids
        existing_embeddings :=
          if emb.isSome then some D.get_all_embedding_photo_ids else none
        existing_photo_places :=
          if g then some D.get_all_photo_places else none } f.photo_id = true := by
    rcases emb with _ | gen <;> cases g
    · simp [earlyExit, hids]
    · simp [earlyExit, hids, hplq rfl]
    · simp [earlyExit, hids, hembq gen rfl]
    · simp [earlyExit, hids, hembq gen rfl, hplq rfl]
  simp [batchRun, process_photo, hEE]

/-- The catalog upsert applied to the single row it already wrote (same
values, no lock) rewrites the row to itself. -/
theorem create_photo_upsert_id (db : Database) (pid fn : String)
    (dne dnl : Option Int) (w hh : Option Nat) (now : Int) (row : PhotoRow)
    (hph : db.photos = [row]) (hed : db.edit_history = [])
    (hid : row.id = pid)
    (h1 : coalesce dne row.date_not_earlier_than = row.date_not_earlier_than)
    (h2 : coalesce dnl row.date_not_later_than = row.date_not_later_than)
    (h4 : coalesce w row.width = row.width)
    (h5 : coalesce hh row.height = row.height)
    (h6 : row.updated_at = now) :
    db.create_photo pid fn dne dnl none w hh now = db := by
  rcases db with ⟨photos, eh, ex, pl, ie, fc, nu⟩
  have hph2 : photos = [row] := hph
  have hed2 : eh = [] := hed
  subst hph2
  subst hed2
  rcases row with ⟨rid, rfn, rdne, rdnl, rpl, rw_, rh, rq, rca, rua⟩
  have hid2 : rid = pid := hid
  have h12 : coalesce dne rdne = rdne := h1
  have h22 : coalesce dnl rdnl = rdnl := h2
  have h42 : coalesce w rw_ = rw_ := h4
  have h52 : coalesce hh rh = rh := h5
  have h62 : rua = now := h6
  have hpl2 : coalesce (none : Option Nat) rpl = rpl := rfl
  rw [Database.create_photo]
  simp [Database.photo_exists, Database.has_manual_edits, hid2, h12, h22,
    h42, h52, h62, hpl2]

/-- The EXIF upsert applied to the single row it already wrote rewrites the
row to itself. -/
theorem create_exif_replay (db : Database) (pid : String) (e : ExifData)
    (hex : db.exif_metadata = [exifRowOf pid e]) :
    db.create_exif_metadata pid e = db := by
  rcases db with ⟨photos, eh, ex, pl, ie, fc, nu⟩
  have hex2 : ex = [exifRowOf pid e] := hex
  subst hex2
  simp [Database.create_exif_metadata, exifRowOf]

/-- Reprocessing a file whose blobs are all visible, whose place resolution
returns nothing and touches nothing, and whose catalog statements rewrite
the rows they already wrote: state unchanged, no upload, no model call. -/
theorem process_photo_second (st : PipelineState) (f : FileSig) (now : Int)
    (l1 l2 l3 ids : List String)
    (h1 : st.ctx.existing_originals = some l1) (hm1 : f.photo_id ∈ l1)
    (h2 : st.ctx.existing_thumbnails = some l2) (hm2 : f.photo_id ∈ l2)
    (h3 : st.ctx.existing_defaults = some l3) (hm3 : f.photo_id ∈ l3)
    (hids : st.ctx.existing_photo_ids = some ids) (hmids : f.photo_id ∈ ids)
    (hemb : ∀ gen, st.ctx.embedder = some gen →
      ∃ l, st.ctx.existing_embeddings = some l ∧ f.photo_id ∈ l)
    (hsnap : ∀ m, st.ctx.existing_photo_places = some m →
      m.lookup f.photo_id = none)
    (hres1 : (get_place_id_for_photo st.db f.exif f.folder_meta.place
        st.ctx.geocoder_on st.ctx.svc st.geo).1 = none)
    (hres2 : (get_place_id_for_photo st.db f.exif f.folder_meta.place
        st.ctx.geocoder_on st.ctx.svc st.geo).2.2.1 = st.db)
    (hcp : st.db.create_photo f.photo_id f.filename
      (some (get_date_for_photo f.exif f.folder_meta.date_range f.mtime).1)
      (some (get_date_for_photo f.exif f.folder_meta.date_range f.mtime).2.1)
      none none none now = st.db)
    (hce : (truthyStr f.exif.camera_make || f.exif.taken_at.isSome) = true →
      st.db.create_exif_metadata f.photo_id f.exif = st.db) :
    (process_photo st f now).1.storage = st.storage ∧
    (process_photo st f now).1.db = st.db ∧
    (process_photo st f now).2.uploads = 0 ∧
    (process_photo st f now).2.embed_calls = 0 ∧
    (process_photo st f now).2.face_detect_calls = 0 := by
  rw [process_photo]
  by_cases he : earlyExit st.ctx f.photo_id = true
  · simp [he]
  · have hflags : blobFlags st.ctx st.storage f.photo_id = (true, true, true) := by
      simp [blobFlags, h1, h2, h3, hm1, hm2, hm3]
    simp only [he, if_false, Bool.false_eq_true, hflags, Bool.and_self, Bool.not_true,
      uploadStage_all_true]
    set hasPl := (match st.ctx.existing_photo_places with
                  | some m => (List.lookup f.photo_id m).isSome
                  | none => false) with hhasPl
    have hpf : hasPl = false := by
      rw [hhasPl]
      rcases hpp : st.ctx.existing_photo_places with _ | m
      · rfl
      · simp [hsnap m hpp]
    set sig := (computeSignals f false hasPl).1 with hsigdef
    have hsig : sig = f.exif := by
      rw [hsigdef, hpf]
      simp [computeSignals]
    set PL := placeStage st.ctx st.db st.geo f.photo_id sig f.folder_meta.place
      with hPLdef
    have hPL : PL.1 = none ∧ PL.2.1 = st.ctx ∧ PL.2.2.1 = st.db := by
      rw [hPLdef, hsig]
      rcases hpp : st.ctx.existing_photo_places with _ | m
      · simp only [placeStage, hpp]
        exact ⟨hres1, by trivial, hres2⟩
      · simp only [placeStage, hpp, hsnap m hpp, hres1]
        exact ⟨by trivial, by trivial, hres2⟩
    obtain ⟨hPL1, hPLctx, hPLdb⟩ := hPL
    have hE : ∀ d : Database, embedStage PL.2.1 d f.photo_id = (PL.2.1, d, 0, 0) := by
      intro d
      apply embedStage_skip
      intro gen hgen
      rw [hPLctx] at hgen
      obtain ⟨l, hl, hml⟩ := hemb gen hgen
      refine ⟨l, ?_, hml⟩
      rw [hPLctx]
      exact hl
    have hF : ∀ d : Database, faceStage PL.2.1 d f.photo_id = (d, 0, 0) := by
      intro d
      rw [hPLctx]
      exact faceStage_skip st.ctx d f.photo_id ids hids hmids
    rw [hsig]
    simp only [hE, hF, hPL1, hPLdb, hcp]
    refine ⟨trivial, ?_, trivial, trivial, trivial⟩
    split
    · next hco => exact hce hco
    · next hco => rfl

/-- Second batch run over a file whose first run (from empty state)
resolved no place while geocoding was enabled: the early exit is missed and
the file is fully reprocessed, yet the store and catalog are unchanged and
no upload or model call happens (the catalog upsert is re-issued). -/
theorem batchRun_second_hard (emb : Option (String → List ℚ))
    (fdet : Option (String → List FaceDet))
    (svc : ℚ → ℚ → Option NominatimAddress) (f : FileSig) (D : Database)
    (now : Int)
    (hph : D.photos = [ingestRow f true svc now])
    (hr : (get_place_id_for_photo {} f.exif f.folder_meta.place true svc {}).1 = none)
    (hed : D.edit_history = [])
    (hex : D.exif_metadata =
      (if truthyStr f.exif.camera_make || f.exif.taken_at.isSome then
        [exifRowOf f.photo_id f.exif] else []))
    (hembq : ∀ gen, emb = some gen → f.photo_id ∈ D.get_all_embedding_photo_ids) :
    (batchRun emb fdet true svc [f]
        ⟨[f.photo_id], [f.photo_id], [f.photo_id]⟩ D now).1.storage =
      ⟨[f.photo_id], [f.photo_id], [f.photo_id]⟩ ∧
    (batchRun emb fdet true svc [f]
        ⟨[f.photo_id], [f.photo_id], [f.photo_id]⟩ D now).1.db = D ∧
    ∃ s, (batchRun emb fdet true svc [f]
        ⟨[f.photo_id], [f.photo_id], [f.photo_id]⟩ D now).2 = [s] ∧
      s.uploads = 0 ∧ s.embed_calls = 0 ∧ s.face_detect_calls = 0 := by
  have hgapp : D.get_all_photo_places = [] := by
    simp [Database.get_all_photo_places, hph, ingestRow, hr]
  have hids : D.get_all_photo_ids = [f.photo_id] := by
    simp [Database.get_all_photo_ids, hph, ingestRow]
  obtain ⟨c1, c2, c3, c4, c5⟩ := process_photo_second
    { ctx := { embedder := emb, face_detector := fdet, geocoder_on := true
               svc := svc
               existing_originals := some (BlobStore.list_all_blobs
                 ⟨[f.photo_id], [f.photo_id], [f.photo_id]⟩ "originals")
               existing_thumbnails := some (BlobStore.list_all_blobs
                 ⟨[f.photo_id], [f.photo_id], [f.photo_id]⟩ "thumbnails")
               existing_defaults := some (BlobStore.list_all_blobs
                 ⟨[f.photo_id], [f.photo_id], [f.photo_id]⟩ "default")
               existing_photo_ids := some D.get_all_photo_ids
               existing_embeddings :=
                 if emb.isSome then some D.get_all_embedding_photo_ids else none
               existing_photo_places :=
                 if true then some D.get_all_photo_places else none }
      storage := ⟨[f.photo_id], [f.photo_id], [f.photo_id]⟩
      db := D, geo := {} } f now
    [f.photo_id] [f.photo_id] [f.photo_id] D.get_all_photo_ids
    rfl (by simp) rfl (by simp) rfl (by simp)
    rfl (by rw [hids]; simp)
    (fun gen hgen => ⟨D.get_all_embedding_photo_ids, by
        show (if emb.isSome then some D.get_all_embedding_photo_ids else none) = _
        rw [show emb = some gen from hgen]
        rfl,
      hembq gen hgen⟩)
    (fun m hm => by
      have hm2 : D.get_all_photo_places = m :=
        Option.some.inj (show some D.get_all_photo_places = some m from hm)
      rw [← hm2, hgapp]
      rfl)
    ((get_place_id_none_replay {} D f.exif f.folder_meta.place true svc {} hr).1)
    ((get_place_id_none_replay {} D f.exif f.folder_meta.place true svc {} hr).2)
    (create_photo_upsert_id D f.photo_id f.filename
      (some (get_date_for_photo f.exif f.folder_meta.date_range f.mtime).1)
      (some (get_date_for_photo f.exif f.folder_meta.date_range f.mtime).2.1)
      none none now (ingestRow f true svc now) hph hed rfl rfl rfl rfl rfl rfl)
    (fun hco => create_exif_replay D f.photo_id f.exif (by
      rw [hex]
      simp [hco]))
  exact ⟨c1, c2, _, rfl, c3, c4, c5⟩

/-- C2 counterexample: with geocoding enabled and a photo whose place
cannot be resolved (no hint, no GPS), the second batch run over the
unchanged file misses the early exit (the photo has no place assignment to
observe) and re-issues the catalog upsert: one write, not zero. -/
theorem second_run_writes_counterexample :
    ((batchRun none none true svcNone [fPlain]
        (batchRun none none true svcNone [fPlain] {} {} 0).1.storage
        (batchRun none none true svcNone [fPlain] {} {} 0).1.db 0).2.map
      (fun r => r.db_writes)) = [1] := by
  decide

/-- C2 (amended): a second batch run over the unchanged single-file set
leaves the object store and the catalog byte-identical (the re-issued
upsert rewrites the same values, including `updated_at` for equal clock
readings), performs no upload and no model call; its statement count is
zero whenever geocoding is off or the photo's place was resolved — the
remaining case (geocoding on, place unresolved) re-issues the upsert. -/
theorem second_run_idempotent (emb : Option (String → List ℚ))
    (fdet : Option (String → List FaceDet)) (g : Bool)
    (svc : ℚ → ℚ → Option NominatimAddress) (f : FileSig) (now : Int) :
    (batchRun emb fdet g svc [f]
        (batchRun emb fdet g svc [f] {} {} now).1.storage
        (batchRun emb fdet g svc [f] {} {} now).1.db now).1.storage =
      (batchRun emb fdet g svc [f] {} {} now).1.storage ∧
    (batchRun emb fdet g svc [f]
        (batchRun emb fdet g svc [f] {} {} now).1.storage
        (batchRun emb fdet g svc [f] {} {} now).1.db now).1.db =
      (batchRun emb fdet g svc [f] {} {} now).1.db ∧
    ∃ s, (batchRun emb fdet g svc [f]
        (batchRun emb fdet g svc [f] {} {} now).1.storage
        (batchRun emb fdet g svc [f] {} {} now).1.db now).2 = [s] ∧
      s.uploads = 0 ∧ s.embed_calls = 0 ∧ s.face_detect_calls = 0 ∧
      (g = false → s.db_writes = 0) ∧
      (∀ p, (get_place_id_for_photo {} f.exif f.folder_meta.place g svc {}).1 =
        some p → s.db_writes = 0) := by
  obtain ⟨hsto, hph, hed, hex, hembS, hembN⟩ := batch_run_one_db emb fdet g svc f now
  have hids : (batchRun emb fdet g svc [f] {} {} now).1.db.get_all_photo_ids =
      [f.photo_id] := by
    simp [Database.get_all_photo_ids, hph, ingestRow]
  have hembq : ∀ gen, emb = some gen →
      f.photo_id ∈ (batchRun emb fdet g svc [f] {} {} now).1.db.get_all_embedding_photo_ids := by
    intro gen hgen
    simp [Database.get_all_embedding_photo_ids, hembS gen hgen]
  rcases hrr : (get_place_id_for_photo {} f.exif f.folder_meta.place g svc {}).1
    with _ | p
  · cases g
    case false =>
      obtain ⟨k1, k2, k3⟩ := batchRun_skip emb fdet false svc f
        (batchRun emb fdet false svc [f] {} {} now).1.storage
        (batchRun emb fdet false svc [f] {} {} now).1.db now hids hembq
        (fun h => by cases h)
      exact ⟨k1, k2, {}, k3, rfl, rfl, rfl, fun _ => rfl,
        fun p hp => Option.noConfusion hp⟩
    case true =>
      rw [hsto]
      obtain ⟨k1, k2, s, hs, hu, hec, hfc⟩ := batchRun_second_hard emb fdet svc f
        (batchRun emb fdet true svc [f] {} {} now).1.db now hph hrr hed hex hembq
      exact ⟨k1, k2, s, hs, hu, hec, hfc, fun hgf => Bool.noConfusion hgf,
        fun p hp => Option.noConfusion hp⟩
  · have hplq : g = true → f.photo_id ∈
        ((batchRun emb fdet g svc [f] {} {} now).1.db.get_all_photo_places.map
          Prod.fst) := by
      intro hg
      subst hg
      simp [Database.get_all_photo_places, hph, ingestRow, hrr]
    obtain ⟨k1, k2, k3⟩ := batchRun_skip emb fdet g svc f
      (batchRun emb fdet g svc [f] {} {} now).1.storage
      (batchRun emb fdet g svc [f] {} {} now).1.db now hids hembq hplq
    exact ⟨k1, k2, {}, k3, rfl, rfl, rfl, fun _ => rfl, fun q hq => rfl⟩

/-! ## C10 — clustering write-back -/

/-- The cumulative effect of the cluster write-back loop on one face row. -/
def applyLabels (f : FaceRow) (pairs : List (Nat × Int)) : FaceRow :=
  pairs.foldl
    (fun g p =>
      if p.2 ≠ -1 ∧ p.1 = g.id then { g with cluster_id := some (mkClusterLabel p.2) }
      else g) f

theorem applyLabels_cons (f : FaceRow) (p : Nat × Int) (rest : List (Nat × Int)) :
    applyLabels f (p :: rest) =
      applyLabels
        (if p.2 ≠ -1 ∧ p.1 = f.id then { f with cluster_id := some (mkClusterLabel p.2) }
         else f) rest := rfl

theorem applyLabels_skip (f : FaceRow) (pairs : List (Nat × Int))
    (h : ∀ p ∈ pairs, p.1 ≠ f.id ∨ p.2 = -1) : applyLabels f pairs = f := by
  induction pairs with
  | nil => rfl
  | cons p rest ih =>
    rw [applyLabels_cons, if_neg]
    · exact ih (fun q hq => h q (List.mem_cons_of_mem p hq))
    · rcases h p (List.mem_cons_self p rest) with h1 | h1
      · exact fun hc => h1 hc.2
      · exact fun hc => hc.1 h1

theorem applyLabels_hit (f : FaceRow) (pairs : List (Nat × Int)) (l : Int)
    (hl : l ≠ -1) :
    (pairs.map Prod.fst).Nodup → (f.id, l) ∈ pairs →
      (applyLabels f pairs).cluster_id = some (mkClusterLabel l) := by
  induction pairs generalizing f with
  | nil => intro _ hmem; cases hmem
  | cons p rest ih =>
    intro hnd hmem
    rcases List.mem_cons.mp hmem with heq | hmem2
    · rw [applyLabels_cons, if_pos (by rw [← heq]; exact ⟨hl, rfl⟩)]
      rw [applyLabels_skip]
      · rw [← heq]
      · intro q hq
        left
        intro hq1
        have hpin : p.1 ∈ rest.map Prod.fst := by
          rw [← heq] at hq1
          exact List.mem_map.mpr ⟨q, hq, by rw [hq1, ← heq]⟩
        exact (List.nodup_cons.mp hnd).1 hpin
    · have hp1 : p.1 ≠ f.id := by
        intro he
        have hin : f.id ∈ rest.map Prod.fst := List.mem_map.mpr ⟨(f.id, l), hmem2, rfl⟩
        rw [← he] at hin
        exact (List.nodup_cons.mp hnd).1 hin
      rw [applyLabels_cons, if_neg (fun hc => hp1 hc.2)]
      exact ih f (List.nodup_cons.mp hnd).2 hmem2

theorem persist_aux_faces (pairs : List (Nat × Int)) (db : Database) (n : Nat) :
    ((pairs.foldl
        (fun acc fl =>
          if fl.2 ≠ -1 then (acc.1.update_face_cluster fl.1 (mkClusterLabel fl.2), acc.2 + 1)
          else acc) ((db, n) : Database × Nat)).1).faces =
      db.faces.map (fun f => applyLabels f pairs) := by
  induction pairs generalizing db n with
  | nil => simp [applyLabels]
  | cons p rest ih =>
    rw [List.foldl_cons]
    by_cases hp : p.2 ≠ -1
    · rw [if_pos hp, ih]
      simp only [Database.update_face_cluster, List.map_map]
      apply List.map_congr_left
      intro g _
      have hXY : (if g.id == p.1 then { g with cluster_id := some (mkClusterLabel p.2) }
            else g) =
          (if p.2 ≠ -1 ∧ p.1 = g.id then { g with cluster_id := some (mkClusterLabel p.2) }
            else g) := by
        by_cases hg : p.1 = g.id
        · rw [if_pos (by rw [hg]; exact beq_self_eq_true g.id), if_pos ⟨hp, hg⟩]
        · rw [if_neg (by simp only [beq_iff_eq]; exact fun hc => hg hc.symm),
            if_neg (fun hc => hg hc.2)]
      rw [Function.comp_apply, applyLabels_cons, ← hXY]
    · rw [if_neg hp, ih]
      apply List.map_congr_left
      intro g _
      rw [applyLabels_cons, if_neg (fun hc => hp hc.1)]

theorem persist_aux_count (pairs : List (Nat × Int)) (db : Database) (n : Nat) :
    (pairs.foldl
        (fun acc fl =>
          if fl.2 ≠ -1 then (acc.1.update_face_cluster fl.1 (mkClusterLabel fl.2), acc.2 + 1)
          else acc) ((db, n) : Database × Nat)).2 =
      n + (pairs.filter (fun p => decide (p.2 ≠ -1))).length := by
  induction pairs generalizing db n with
  | nil => simp
  | cons p rest ih =>
    rw [List.foldl_cons, List.filter_cons]
    by_cases hp : p.2 ≠ -1
    · rw [if_pos hp, if_pos (by simpa using hp), ih]
      simp only [List.length_cons]
      omega
    · rw [if_neg hp, if_neg (by simpa using hp), ih]

theorem persistClusterLabels_faces (db : Database) (face_ids : List Nat)
    (labels : List Int) :
    (persistClusterLabels db face_ids labels).1.faces =
      db.faces.map (fun f => applyLabels f (face_ids.zip labels)) :=
  persist_aux_faces (face_ids.zip labels) db 0

theorem nodup_fst_eq {α β : Type} (pairs : List (α × β))
    (hnd : (pairs.map Prod.fst).Nodup) (a : α) (b c : β)
    (hb : (a, b) ∈ pairs) (hc : (a, c) ∈ pairs) : b = c := by
  induction pairs with
  | nil => cases hb
  | cons p rest ih =>
    rcases List.mem_cons.mp hb with rfl | hb2 <;> rcases List.mem_cons.mp hc with h2 | hc2
    · exact (congrArg Prod.snd h2).symm
    · exact absurd (List.mem_map.mpr ⟨(a, c), hc2, rfl⟩) (List.nodup_cons.mp hnd).1
    · exact absurd (List.mem_map.mpr ⟨(a, b), hb2, by rw [← h2]⟩)
        (List.nodup_cons.mp hnd).1
    · exact ih (List.nodup_cons.mp hnd).2 hb2 hc2

theorem zip_filter_snd_length (ids : List Nat) (labels : List Int)
    (h : ids.length = labels.length) :
    ((ids.zip labels).filter (fun p => decide (p.2 ≠ -1))).length =
      (labels.filter (fun l => decide (l ≠ -1))).length := by
  induction ids generalizing labels with
  | nil =>
    cases labels with
    | nil => rfl
    | cons l ls => simp at h
  | cons a rest ih =>
    cases labels with
    | nil => simp at h
    | cons l ls =>
      rw [List.zip_cons_cons, List.filter_cons, List.filter_cons]
      by_cases hl : l ≠ -1
      · rw [if_pos (by simpa using hl), if_pos (by simpa using hl)]
        simp only [List.length_cons]
        rw [ih ls (by simpa using h)]
      · rw [if_neg (by simpa using hl), if_neg (by simpa using hl)]
        exact ih ls (by simpa using h)

/-- C10 counterexample: a face already labeled `cluster_0` that DBSCAN now
labels noise is NOT reset to a null cluster label — the loop skips it, so it
keeps its stale label; and the two non-noise faces are written with two
individual UPDATE statements, not one batch. -/
theorem cluster_noise_counterexample :
    ((clusterRun dbThreeFaces [-1, 3, 3]).1.faces.map (fun f => f.cluster_id) =
      [some "cluster_0", some "cluster_3", some "cluster_3"]) ∧
    some "cluster_0" ≠ (none : Option String) ∧
    (clusterRun dbThreeFaces [-1, 3, 3]).2 = 2 := by
  refine ⟨by decide, by decide, by decide⟩

/-- C10 amended: after a clustering run, every non-noise face carries the
string identifier derived from its label; every face labeled noise keeps
whatever cluster label it had before the run (null only if it was never
clustered); and the labels are written back as one single-row UPDATE per
non-noise face rather than a single batch statement. -/
theorem cluster_label_writeback (db : Database) (labels : List Int)
    (hnd : (db.faces.map (fun f => f.id)).Nodup)
    (hlen : labels.length = db.faces.length) :
    (∀ (i : Nat) (f : FaceRow) (l : Int), db.faces[i]? = some f → labels[i]? = some l →
      ((clusterRun db labels).1.faces[i]?).map (fun x => x.cluster_id) =
        some (if l = -1 then f.cluster_id else some (mkClusterLabel l))) ∧
    (clusterRun db labels).2 = (labels.filter (fun l => decide (l ≠ -1))).length := by
  have hids : db.get_all_face_embeddings.map Prod.fst = db.faces.map (fun f => f.id) := by
    simp [Database.get_all_face_embeddings, List.map_map, Function.comp_def]
  have hidlen : (db.get_all_face_embeddings.map Prod.fst).length = labels.length := by
    rw [hids, List.length_map, hlen]
  have hfst : ((db.get_all_face_embeddings.map Prod.fst).zip labels).map Prod.fst =
      db.faces.map (fun f => f.id) := by
    rw [List.map_fst_zip _ _ (le_of_eq hidlen), hids]
  constructor
  · intro i f l hf hl
    have hfaces :=
      persistClusterLabels_faces db (db.get_all_face_embeddings.map Prod.fst) labels
    have hpair : ((db.get_all_face_embeddings.map Prod.fst).zip labels)[i]? =
        some (f.id, l) := by
      apply List.getElem?_zip_eq_some.mpr
      constructor
      · rw [hids, List.getElem?_map, hf]
        rfl
      · exact hl
    have hpmem : (f.id, l) ∈ (db.get_all_face_embeddings.map Prod.fst).zip labels :=
      List.getElem?_mem hpair
    have hndz : (((db.get_all_face_embeddings.map Prod.fst).zip labels).map
        Prod.fst).Nodup := by
      rw [hfst]; exact hnd
    show ((persistClusterLabels db
        (db.get_all_face_embeddings.map Prod.fst) labels).1.faces[i]?).map
        (fun x => x.cluster_id) = _
    rw [hfaces, List.getElem?_map, hf]
    by_cases hcase : l = -1
    · simp only [Option.map_some']
      rw [applyLabels_skip f _ ?_]
      · simp [hcase]
      · intro p hp
        by_cases hp1 : p.1 = f.id
        · right
        
          have hpeq : p.2 = l := by
            have hpp : (f.id, p.2) ∈ (db.get_all_face_embeddings.map Prod.fst).zip labels := by
              have : p = (f.id, p.2) := by
                rcases p with ⟨p1, p2⟩
                simp only [Prod.mk.injEq]
                exact ⟨hp1, trivial⟩
              rw [← this]
              exact hp
            exact nodup_fst_eq _ hndz f.id p.2 l hpp hpmem
          rw [hpeq, hcase]
        · exact Or.inl hp1
    · simp only [Option.map_some']
      rw [applyLabels_hit f _ l hcase hndz hpmem]
      simp [hcase]
  · show (persistClusterLabels db (db.get_all_face_embeddings.map Prod.fst) labels).2 = _
    have hcnt := persist_aux_count
      ((db.get_all_face_embeddings.map Prod.fst).zip labels) db 0
    rw [persistClusterLabels, hcnt, zip_filter_snd_length _ _ hidlen, Nat.zero_add]

/-- C10 witness: on the three-face fixture with labels `[-1, 3, 3]` the
write-back issues exactly one single-row update per non-noise face. -/
theorem cluster_label_writeback_witness :
    (clusterRun dbThreeFaces [-1, 3, 3]).2 =
      (([-1, 3, 3] : List Int).filter (fun l => decide (l ≠ -1))).length :=
  (cluster_label_writeback dbThreeFaces [-1, 3, 3] (by decide) (by decide)).2


end PhotoUploader
